import Mathlib

/-
Verification of the league bot's ledger-and-standings engine.

The definitions below are a shallow embedding of the SQLite-backed state
and of the bot's commands (src/bot.py): each table becomes a list of row
structures, each command becomes a function from database state to
database state (returning the reply message where a claim talks about
what is reported to the caller).  `Op`/`step`/`runOps` give the reachable
states of the engine.  `replay`, `matchDelta` and `sumDelta` are the
analysis-side definitions used to state replay equivalence.
-/

set_option linter.all false

namespace LeagueBot

/-- Wins/draws/losses/points of a standings row, as a 4-tuple of integers
(the SQLite columns are signed integers). -/
abbrev Vals := Int × Int × Int × Int

def Vals.wins (v : Vals) : Int := v.1

def Vals.draws (v : Vals) : Int := v.2.1

def Vals.losses (v : Vals) : Int := v.2.2.1

def Vals.points (v : Vals) : Int := v.2.2.2

/-- Row of the `leagues` table. -/
structure LeagueRow where
  id : Nat
  guild_id : String
  name : String
  format : String
  status : String
deriving DecidableEq

/-- Row of the `matches` table (the ledger). -/
structure MatchRow where
  id : Nat
  league_id : Nat
  format : String
  p1 : String
  p2 : String
  result : String
  created_at : Int
  p1_deck : String
  p2_deck : String
deriving DecidableEq

/-- Row of the `standings` table. -/
structure StandingRow where
  league_id : Nat
  user_id : String
  wins : Int
  draws : Int
  losses : Int
  points : Int
deriving DecidableEq

/-- Row of the `decks` table. -/
structure DeckRow where
  guild_id : String
  format : String
  name : String
deriving DecidableEq

/-- Row of the `pending_matches` table.  `winner_id`/`loser_id` are the
NULLable columns, only filled for a `win` report. -/
structure PendingRow where
  id : Nat
  league_id : Nat
  guild_id : String
  format : String
  reporter_id : String
  opponent_id : String
  result : String
  winner_id : Option String
  loser_id : Option String
  p1_deck : String
  p2_deck : String
  created_at : Int
deriving DecidableEq

/-- The whole database.  The `next…Id` counters model the AUTOINCREMENT
primary keys of `leagues`, `matches` and `pending_matches`. -/
structure DB where
  leagues : List LeagueRow
  players : List (Nat × String)
  standings : List StandingRow
  matches' : List MatchRow
  decks : List DeckRow
  pending : List PendingRow
  nextLeagueId : Nat
  nextMatchId : Nat
  nextPendingId : Nat
deriving DecidableEq

/-- Empty database, as created by `setup_hook`. -/
def initDB : DB :=
  { leagues := [], players := [], standings := [], matches' := [], decks := []
  , pending := [], nextLeagueId := 1, nextMatchId := 1, nextPendingId := 1 }

/-- `FORMATS` from the source. -/
def FORMATS : List String := ["Genesys", "Compétitif", "Chill"]

/-- Whitespace for the purposes of Python's `str.strip`. -/
def isSpaceChar (c : Char) : Bool :=
  c == ' ' || c == '\t' || c == '\n' || c == '\r'

/-- Python's `str.strip()`: drop leading and trailing whitespace. -/
def pyStrip (s : String) : String :=
  ⟨(((s.data.dropWhile isSpaceChar).reverse.dropWhile isSpaceChar).reverse)⟩

/-- Lower-case one character (ASCII letters, as the identifiers and format
names used by the bot contain no upper-case characters beyond these). -/
def lowerChar (c : Char) : Char :=
  match c with
  | 'A' => 'a' | 'B' => 'b' | 'C' => 'c' | 'D' => 'd' | 'E' => 'e' | 'F' => 'f'
  | 'G' => 'g' | 'H' => 'h' | 'I' => 'i' | 'J' => 'j' | 'K' => 'k' | 'L' => 'l'
  | 'M' => 'm' | 'N' => 'n' | 'O' => 'o' | 'P' => 'p' | 'Q' => 'q' | 'R' => 'r'
  | 'S' => 's' | 'T' => 't' | 'U' => 'u' | 'V' => 'v' | 'W' => 'w' | 'X' => 'x'
  | 'Y' => 'y' | 'Z' => 'z' | c => c

/-- Python's `str.lower()`. -/
def pyLower (s : String) : String := ⟨s.data.map lowerChar⟩

/-- Python's `len` of a string. -/
def pyLen (s : String) : Nat := s.data.length

/-- `normalize_format`: strip, then case-insensitive match against `FORMATS`. -/
def normalize_format (fmt : String) : String :=
  let f := pyStrip fmt
  match FORMATS.find? (fun g => pyLower f == pyLower g) with
  | some g => g
  | none => f

/-- `ORDER BY id DESC LIMIT 1`: the row with the largest id, if any. -/
def pickLatestLeague : List LeagueRow → Option LeagueRow
  | [] => none
  | l :: ls =>
    match pickLatestLeague ls with
    | none => some l
    | some m => if m.id ≤ l.id then some l else some m

/-- `ORDER BY id DESC LIMIT 1` over matches. -/
def latestMatch : List MatchRow → Option MatchRow
  | [] => none
  | m :: ms =>
    match latestMatch ms with
    | none => some m
    | some m2 => if m2.id ≤ m.id then some m else some m2

/-- The `WHERE guild_id=? AND format=? AND status='open'` condition. -/
def leagueOpenP (guild_id fmt : String) (l : LeagueRow) : Bool :=
  l.guild_id == guild_id && l.format == fmt && l.status == "open"

/-- `get_open_league`: most recent league of the guild/format with status `open`. -/
def get_open_league (db : DB) (guild_id fmt : String) : Option LeagueRow :=
  pickLatestLeague (db.leagues.filter (leagueOpenP guild_id (normalize_format fmt)))

/-- `UPDATE leagues SET status='closed' WHERE id=?`. -/
def closeById (ls : List LeagueRow) (i : Nat) : List LeagueRow :=
  ls.map (fun l => if l.id == i then { l with status := "closed" } else l)

/-- The `WHERE league_id=? AND user_id=?` condition on a standings row. -/
def keyMatch (league_id : Nat) (user_id : String) (s : StandingRow) : Bool :=
  s.league_id == league_id && s.user_id == user_id

/-- `ensure_standing`: insert a zero row for the key if absent. -/
def ensure_standing (st : List StandingRow) (league_id : Nat) (user_id : String) :
    List StandingRow :=
  if (st.find? (keyMatch league_id user_id)).isSome then st
  else st ++ [{ league_id := league_id, user_id := user_id
              , wins := 0, draws := 0, losses := 0, points := 0 }]

/-- `UPDATE standings SET … WHERE league_id=? AND user_id=?`. -/
def updStandings (st : List StandingRow) (league_id : Nat) (user_id : String)
    (f : StandingRow → StandingRow) : List StandingRow :=
  st.map (fun s => if keyMatch league_id user_id s then f s else s)

/-- `SET wins=wins+1, points=points+3` on one row. -/
def bumpWin (s : StandingRow) : StandingRow :=
  { s with wins := s.wins + 1, points := s.points + 3 }

/-- `SET losses=losses+1` on one row. -/
def bumpLoss (s : StandingRow) : StandingRow :=
  { s with losses := s.losses + 1 }

/-- `SET draws=draws+1, points=points+1` on one row. -/
def bumpDraw (s : StandingRow) : StandingRow :=
  { s with draws := s.draws + 1, points := s.points + 1 }

/-- `SET wins=wins-1, points=points-3` on one row. -/
def dropWin (s : StandingRow) : StandingRow :=
  { s with wins := s.wins - 1, points := s.points - 3 }

/-- `SET losses=losses-1` on one row. -/
def dropLoss (s : StandingRow) : StandingRow :=
  { s with losses := s.losses - 1 }

/-- `SET draws=draws-1, points=points-1` on one row. -/
def dropDraw (s : StandingRow) : StandingRow :=
  { s with draws := s.draws - 1, points := s.points - 1 }

/-- `apply_win` from the source, acting on the standings table. -/
def apply_win (st : List StandingRow) (league_id : Nat) (winner_id loser_id : String) :
    List StandingRow :=
  updStandings
    (updStandings (ensure_standing (ensure_standing st league_id winner_id) league_id loser_id)
      league_id winner_id bumpWin)
    league_id loser_id bumpLoss

/-- `apply_draw` from the source, acting on the standings table. -/
def apply_draw (st : List StandingRow) (league_id : Nat) (p1_id p2_id : String) :
    List StandingRow :=
  updStandings (ensure_standing
    (updStandings (ensure_standing st league_id p1_id) league_id p1_id bumpDraw)
    league_id p2_id) league_id p2_id bumpDraw

/-- `is_player`. -/
def is_player (db : DB) (league_id : Nat) (user_id : String) : Bool :=
  db.players.any (fun pr => pr.1 == league_id && pr.2 == user_id)

/-- `upsert_deck`: normalize the format, strip the name, skip empty names,
`INSERT OR IGNORE` otherwise. -/
def upsert_deck (db : DB) (guild_id fmt deck_name : String) : DB :=
  let f := normalize_format fmt
  let n := pyStrip deck_name
  if n == "" then db
  else if db.decks.any (fun d => d.guild_id == guild_id && d.format == f && d.name == n) then db
  else { db with decks := db.decks ++ [{ guild_id := guild_id, format := f, name := n }] }

/-- `validate_decks`: every stripped name non-empty and at most 50 characters. -/
def validate_decks (names : List String) : Bool × String :=
  let cleaned := names.map (fun n => pyStrip n)
  if cleaned.any (fun n => n == "") then
    (false, "Tu dois renseigner tous les decks (pas vide).")
  else if cleaned.any (fun n => 50 < pyLen n) then
    (false, "Nom de deck trop long (max 50 caracteres).")
  else (true, "")

/-- `INSERT INTO matches …` with the AUTOINCREMENT id. -/
def insert_match (db : DB) (league_id : Nat) (fmt p1 p2 result : String)
    (created_at : Int) (p1_deck p2_deck : String) : DB :=
  let row : MatchRow :=
    { id := db.nextMatchId, league_id := league_id, format := fmt, p1 := p1, p2 := p2
    , result := result, created_at := created_at, p1_deck := p1_deck, p2_deck := p2_deck }
  { db with matches' := db.matches' ++ [row], nextMatchId := db.nextMatchId + 1 }

/-- `DELETE FROM pending_matches WHERE id=?`. -/
def delete_pending (db : DB) (pid : Nat) : DB :=
  { db with pending := db.pending.filter (fun p => p.id != pid) }

/-- `INSERT INTO pending_matches …` with the AUTOINCREMENT id. -/
def insert_pending (db : DB) (league_id : Nat)
    (guild_id fmt reporter_id opponent_id result : String)
    (winner_id loser_id : Option String) (p1_deck p2_deck : String)
    (created_at : Int) : DB :=
  let row : PendingRow :=
    { id := db.nextPendingId, league_id := league_id, guild_id := guild_id, format := fmt
    , reporter_id := reporter_id, opponent_id := opponent_id, result := result
    , winner_id := winner_id, loser_id := loser_id
    , p1_deck := p1_deck, p2_deck := p2_deck, created_at := created_at }
  { db with pending := db.pending ++ [row], nextPendingId := db.nextPendingId + 1 }

def msg_stale : String := "Ce match n est plus en attente."

def msg_closed : String := "Tournoi ferme : confirmation impossible."

def msg_unregistered : String := "Un joueur n est plus inscrit : match annule."

def msg_confirmed : String := "Match confirme et enregistre !"

def msg_refused : String := "Match refuse."

def msg_not_opponent : String := "Seul l adversaire peut confirmer/refuser."

def msg_nothing_to_undo : String := "Aucun match a annuler."

def msg_no_open_league : String := "Aucun tournoi ouvert pour ce format."

def msg_undone : String := "Dernier match annule."

/-- The data a `ConfirmMatchView` closure carries: the pending id and the
opponent id it was created with. -/
structure ConfirmMatchView where
  pending_id : Nat
  opponent_id : String
deriving DecidableEq

/-- `ConfirmMatchView.interaction_check`: only the stored opponent passes. -/
def interaction_check (v : ConfirmMatchView) (actor : String) : Bool :=
  actor == v.opponent_id

/-- The initial `SELECT * FROM pending_matches WHERE id=?` of the confirm
handler. -/
def confirm_read (db : DB) (pid : Nat) : Option PendingRow :=
  db.pending.find? (fun p => p.id == pid)

/-- The rest of `ConfirmMatchView.confirm` after the pending row has been
read: re-validate league and registrations, register the decks, apply the
scoring, append the match, delete the pending row.  Returns the new state
and the message edited into the confirmation prompt. -/
def confirm_body (db : DB) (pid : Nat) (p : PendingRow) : DB × String :=
  match db.leagues.find? (fun l => l.id == p.league_id) with
  | none => (delete_pending db pid, msg_closed)
  | some league =>
    if league.status != "open" then (delete_pending db pid, msg_closed)
    else if !(is_player db p.league_id p.reporter_id)
         || !(is_player db p.league_id p.opponent_id) then
      (delete_pending db pid, msg_unregistered)
    else
      let fmt := normalize_format p.format
      let db1 := upsert_deck db p.guild_id fmt p.p1_deck
      let db2 := upsert_deck db1 p.guild_id fmt p.p2_deck
      if p.result == "win" then
        let w := p.winner_id.getD "None"
        let lo := p.loser_id.getD "None"
        let db3 := { db2 with standings := apply_win db2.standings p.league_id w lo }
        let db4 := insert_match db3 p.league_id fmt w lo "win" p.created_at p.p1_deck p.p2_deck
        (delete_pending db4 pid, msg_confirmed)
      else
        let db3 := { db2 with
          standings := apply_draw db2.standings p.league_id p.reporter_id p.opponent_id }
        let db4 := insert_match db3 p.league_id fmt p.reporter_id p.opponent_id "draw"
          p.created_at p.p1_deck p.p2_deck
        (delete_pending db4 pid, msg_confirmed)

/-- `ConfirmMatchView.confirm` as dispatched by the UI framework: the
`interaction_check` runs first, then the handler reads the pending row and
runs the body. -/
def view_confirm (db : DB) (v : ConfirmMatchView) (actor : String) : DB × String :=
  if !(interaction_check v actor) then (db, msg_not_opponent)
  else
    match confirm_read db v.pending_id with
    | none => (db, msg_stale)
    | some p => confirm_body db v.pending_id p

/-- `ConfirmMatchView.refuse`: after the `interaction_check`, delete the
pending row unconditionally. -/
def view_refuse (db : DB) (v : ConfirmMatchView) (actor : String) : DB × String :=
  if !(interaction_check v actor) then (db, msg_not_opponent)
  else (delete_pending db v.pending_id, msg_refused)

/-- `league_create`: reject invalid formats, close the previously open
league of the scope, insert the new open league. -/
def league_create (db : DB) (guild_id name fmt0 : String) : DB :=
  let fmt := normalize_format fmt0
  if !(FORMATS.contains fmt) then db
  else
    let db1 :=
      match get_open_league db guild_id fmt with
      | some prev => { db with leagues := closeById db.leagues prev.id }
      | none => db
    let row : LeagueRow :=
      { id := db1.nextLeagueId, guild_id := guild_id, name := name
      , format := fmt, status := "open" }
    { db1 with leagues := db1.leagues ++ [row], nextLeagueId := db1.nextLeagueId + 1 }

/-- `league_close`. -/
def league_close (db : DB) (guild_id fmt0 : String) : DB :=
  match get_open_league db guild_id fmt0 with
  | none => db
  | some league => { db with leagues := closeById db.leagues league.id }

/-- `joinleague` (`INSERT OR IGNORE INTO players`). -/
def joinleague (db : DB) (guild_id fmt0 user_id : String) : DB :=
  match get_open_league db guild_id fmt0 with
  | none => db
  | some league =>
    if db.players.any (fun pr => pr.1 == league.id && pr.2 == user_id) then db
    else { db with players := db.players ++ [(league.id, user_id)] }

/-- `leaveleague`. -/
def leaveleague (db : DB) (guild_id fmt0 user_id : String) : DB :=
  match get_open_league db guild_id fmt0 with
  | none => db
  | some league =>
    let ps := db.players.filter (fun pr => !(pr.1 == league.id && pr.2 == user_id))
    { db with players := ps }

/-- `winversus`: all guards of the command, then deck upserts, `apply_win`
and the ledger append. -/
def winversus (db : DB) (guild_id fmt0 user_id adversaire : String) (advBot : Bool)
    (deck_gagnant deck_adverse : String) (t : Int) : DB :=
  let fmt := normalize_format fmt0
  if !(FORMATS.contains fmt) then db
  else if adversaire == user_id then db
  else
    match get_open_league db guild_id fmt with
    | none => db
    | some league =>
      if advBot then db
      else if !(is_player db league.id user_id) then db
      else if !(is_player db league.id adversaire) then db
      else if !((validate_decks [deck_gagnant, deck_adverse]).1) then db
      else
        let dg := pyStrip deck_gagnant
        let da := pyStrip deck_adverse
        let db1 := upsert_deck db guild_id fmt dg
        let db2 := upsert_deck db1 guild_id fmt da
        let db3 := { db2 with standings := apply_win db2.standings league.id user_id adversaire }
        insert_match db3 league.id fmt user_id adversaire "win" t dg da

/-- `drawversus`. -/
def drawversus (db : DB) (guild_id fmt0 user_id adversaire : String) (advBot : Bool)
    (deck_p1 deck_p2 : String) (t : Int) : DB :=
  let fmt := normalize_format fmt0
  if !(FORMATS.contains fmt) then db
  else if adversaire == user_id then db
  else
    match get_open_league db guild_id fmt with
    | none => db
    | some league =>
      if advBot then db
      else if !(is_player db league.id user_id) then db
      else if !(is_player db league.id adversaire) then db
      else if !((validate_decks [deck_p1, deck_p2]).1) then db
      else
        let d1 := pyStrip deck_p1
        let d2 := pyStrip deck_p2
        let db1 := upsert_deck db guild_id fmt d1
        let db2 := upsert_deck db1 guild_id fmt d2
        let db3 := { db2 with standings := apply_draw db2.standings league.id user_id adversaire }
        insert_match db3 league.id fmt user_id adversaire "draw" t d1 d2

/-- `reportmatch`: all guards, then the pending insert (no deck upsert, no
scoring at report time). -/
def reportmatch (db : DB) (guild_id fmt0 user_id adversaire : String) (advBot : Bool)
    (resultat0 deck_moi deck_adverse victoire_de0 : String) (t : Int) : DB :=
  if !(FORMATS.contains (normalize_format fmt0)) then db
  else if adversaire == user_id then db
  else
    match get_open_league db guild_id (normalize_format fmt0) with
    | none => db
    | some league =>
      if advBot then db
      else if !(is_player db league.id user_id) then db
      else if !(is_player db league.id adversaire) then db
      else if !(pyLower (pyStrip resultat0) == "win"
          || pyLower (pyStrip resultat0) == "draw") then db
      else if !((validate_decks [deck_moi, deck_adverse]).1) then db
      else if pyLower (pyStrip resultat0) == "win" then
        if !(pyLower (pyStrip (if victoire_de0 == "" then "moi" else victoire_de0)) == "moi"
            || pyLower (pyStrip (if victoire_de0 == "" then "moi" else victoire_de0))
              == "adversaire") then db
        else if pyLower (pyStrip (if victoire_de0 == "" then "moi" else victoire_de0))
            == "moi" then
          insert_pending db league.id guild_id (normalize_format fmt0) user_id adversaire
            "win" (some user_id) (some adversaire) (pyStrip deck_moi) (pyStrip deck_adverse) t
        else
          insert_pending db league.id guild_id (normalize_format fmt0) user_id adversaire
            "win" (some adversaire) (some user_id) (pyStrip deck_adverse) (pyStrip deck_moi) t
      else
        insert_pending db league.id guild_id (normalize_format fmt0) user_id adversaire
          "draw" none none (pyStrip deck_moi) (pyStrip deck_adverse) t

/-- The standings reversal `league_undo_last` performs for a `win` match:
`wins-1, points-3` for `p1` (the winner), `losses-1` for `p2`. -/
def undo_win (st : List StandingRow) (league_id : Nat) (p1 p2 : String) :
    List StandingRow :=
  updStandings (updStandings st league_id p1 dropWin) league_id p2 dropLoss

/-- The standings reversal `league_undo_last` performs for a draw:
`draws-1, points-1` for both players. -/
def undo_draw (st : List StandingRow) (league_id : Nat) (p1 p2 : String) :
    List StandingRow :=
  updStandings (updStandings st league_id p1 dropDraw) league_id p2 dropDraw

/-- `league_undo_last`: find the open league, its highest-id match,
reverse the scoring deltas and delete the match.  Returns the reply. -/
def league_undo_last (db : DB) (guild_id fmt0 : String) : DB × String :=
  match get_open_league db guild_id fmt0 with
  | none => (db, msg_no_open_league)
  | some league =>
    match latestMatch (db.matches'.filter (fun m => m.league_id == league.id)) with
    | none => (db, msg_nothing_to_undo)
    | some m =>
      let st :=
        if m.result == "win" then undo_win db.standings league.id m.p1 m.p2
        else undo_draw db.standings league.id m.p1 m.p2
      ({ db with standings := st, matches' := db.matches'.filter (fun x => x.id != m.id) }
       , msg_undone)

/-- `admin_reset_league`: delete matches, standings, players and pending
rows of the open league; decks are untouched. -/
def admin_reset_league (db : DB) (guild_id fmt0 : String) : DB :=
  match get_open_league db guild_id fmt0 with
  | none => db
  | some league =>
    { db with
      matches' := db.matches'.filter (fun m => m.league_id != league.id)
    , standings := db.standings.filter (fun s => s.league_id != league.id)
    , players := db.players.filter (fun pr => pr.1 != league.id)
    , pending := db.pending.filter (fun p => p.league_id != league.id) }

/-- `deck_add` (admin command). -/
def deck_add (db : DB) (guild_id fmt0 name0 : String) : DB :=
  let fmt := normalize_format fmt0
  if !(FORMATS.contains fmt) then db
  else
    let name := pyStrip name0
    if name == "" then db
    else if 50 < pyLen name then db
    else upsert_deck db guild_id fmt name

/-- `deck_remove` (admin command). -/
def deck_remove (db : DB) (guild_id fmt0 name0 : String) : DB :=
  let fmt := normalize_format fmt0
  if !(FORMATS.contains fmt) then db
  else
    let name := pyStrip name0
    if name == "" then db
    else
      let ds := db.decks.filter
        (fun d => !(d.guild_id == guild_id && d.format == fmt && d.name == name))
      { db with decks := ds }

/-- Result row of the `deck_stats` aggregation query. -/
structure DeckStats where
  wins : Nat
  losses : Nat
  draws : Nat
  games : Nat
deriving DecidableEq

/-- The `deck_stats` aggregation: over the league's matches with the deck
on either side, `SUM(CASE WHEN …)` for wins/losses/draws and `COUNT(*)`
for games. -/
def deck_stats (ms : List MatchRow) (league_id : Nat) (deck : String) : DeckStats :=
  let rows := ms.filter
    (fun m => m.league_id == league_id && (m.p1_deck == deck || m.p2_deck == deck))
  { wins := rows.countP (fun m => m.result == "win" && m.p1_deck == deck)
  , losses := rows.countP (fun m => m.result == "win" && m.p2_deck == deck)
  , draws := rows.countP (fun m => m.result == "draw" && (m.p1_deck == deck || m.p2_deck == deck))
  , games := rows.length }

/-- Result row of the `deck_matchups` aggregation query. -/
structure MatchupStats where
  a_wins : Nat
  b_wins : Nat
  draws : Nat
  games : Nat
deriving DecidableEq

/-- The `deck_matchups` aggregation between two decks. -/
def deck_matchups (ms : List MatchRow) (league_id : Nat) (deck_a deck_b : String) :
    MatchupStats :=
  let rows := ms.filter (fun m => m.league_id == league_id &&
    ((m.p1_deck == deck_a && m.p2_deck == deck_b)
      || (m.p1_deck == deck_b && m.p2_deck == deck_a)))
  { a_wins := rows.countP (fun m => m.result == "win" && m.p1_deck == deck_a && m.p2_deck == deck_b)
  , b_wins := rows.countP (fun m => m.result == "win" && m.p1_deck == deck_b && m.p2_deck == deck_a)
  , draws := rows.countP (fun m => m.result == "draw" &&
      ((m.p1_deck == deck_a && m.p2_deck == deck_b)
        || (m.p1_deck == deck_b && m.p2_deck == deck_a)))
  , games := rows.length }

/-- One user-visible mutating command of the bot, with all of its inputs.
Confirm/refuse carry the opponent id the view closure was created with
and the id of the user pressing the button. -/
inductive Op where
  | createL (guild_id name fmt : String)
  | closeL (guild_id fmt : String)
  | join (guild_id fmt user_id : String)
  | leave (guild_id fmt user_id : String)
  | winv (guild_id fmt user_id adversaire : String) (advBot : Bool)
      (deck_gagnant deck_adverse : String) (t : Int)
  | drawv (guild_id fmt user_id adversaire : String) (advBot : Bool)
      (deck_p1 deck_p2 : String) (t : Int)
  | reportm (guild_id fmt user_id adversaire : String) (advBot : Bool)
      (resultat deck_moi deck_adverse victoire_de : String) (t : Int)
  | confirmB (pid : Nat) (view_opponent actor : String)
  | refuseB (pid : Nat) (view_opponent actor : String)
  | undoL (guild_id fmt : String)
  | resetL (guild_id fmt : String)
  | deckAddC (guild_id fmt name : String)
  | deckRemoveC (guild_id fmt name : String)
deriving DecidableEq

/-- State transition of one command. -/
def step (db : DB) : Op → DB
  | .createL g n f => league_create db g n f
  | .closeL g f => league_close db g f
  | .join g f u => joinleague db g f u
  | .leave g f u => leaveleague db g f u
  | .winv g f u a b dg da t => winversus db g f u a b dg da t
  | .drawv g f u a b d1 d2 t => drawversus db g f u a b d1 d2 t
  | .reportm g f u a b r dm da v t => reportmatch db g f u a b r dm da v t
  | .confirmB pid vopp actor => (view_confirm db ⟨pid, vopp⟩ actor).1
  | .refuseB pid vopp actor => (view_refuse db ⟨pid, vopp⟩ actor).1
  | .undoL g f => (league_undo_last db g f).1
  | .resetL g f => admin_reset_league db g f
  | .deckAddC g f n => deck_add db g f n
  | .deckRemoveC g f n => deck_remove db g f n

/-- The database reached from the empty database by a command sequence. -/
def runOps (ops : List Op) : DB := ops.foldl step initDB

/-- Replay one ledger row onto a standings table: `apply_win` with `p1` as
winner and `p2` as loser for a win, `apply_draw` on `p1`,`p2` otherwise
(this is the spec's replay semantics of a Match row). -/
def replayMatch (st : List StandingRow) (m : MatchRow) : List StandingRow :=
  if m.result == "win" then apply_win st m.league_id m.p1 m.p2
  else apply_draw st m.league_id m.p1 m.p2

/-- Replay a whole ledger from zero-initialized rows. -/
def replay (ms : List MatchRow) : List StandingRow := ms.foldl replayMatch []

/-- The four counters of a standings row as a `Vals` tuple. -/
def svals (s : StandingRow) : Vals := (s.wins, s.draws, s.losses, s.points)

/-- The four counters of the standings row for a key, zero if the row is
absent. -/
def lookupVals (st : List StandingRow) (league_id : Nat) (user_id : String) : Vals :=
  match st.find? (keyMatch league_id user_id) with
  | some s => (s.wins, s.draws, s.losses, s.points)
  | none => 0

/-- Whether a standings row for the key exists. -/
def hasStanding (st : List StandingRow) (league_id : Nat) (user_id : String) : Bool :=
  (st.find? (keyMatch league_id user_id)).isSome

/-- Scoring contribution of the winner of a match. -/
def winnerD : Vals := (1, 0, 0, 3)

/-- Scoring contribution of the loser of a match. -/
def loserD : Vals := (0, 0, 1, 0)

/-- Scoring contribution of each side of a draw. -/
def drawD : Vals := (0, 1, 0, 1)

/-- What one ledger row contributes to the standings counters at one key. -/
def matchDelta (m : MatchRow) (league_id : Nat) (user_id : String) : Vals :=
  if m.league_id = league_id then
    if m.result = "win" then
      (if user_id = m.p1 then winnerD else 0) + (if user_id = m.p2 then loserD else 0)
    else
      (if user_id = m.p1 then drawD else 0) + (if user_id = m.p2 then drawD else 0)
  else 0

/-- Total contribution of a ledger to the standings counters at one key. -/
def sumDelta : List MatchRow → Nat → String → Vals
  | [], _, _ => 0
  | m :: ms, league_id, user_id => matchDelta m league_id user_id + sumDelta ms league_id user_id


/-- All four counters non-negative. -/
@[reducible]
def valsNonneg (v : Vals) : Prop :=
  0 ≤ v.wins ∧ 0 ≤ v.draws ∧ 0 ≤ v.losses ∧ 0 ≤ v.points

/-- The point-accounting rule `points = 3*wins + draws`. -/
@[reducible]
def valsPointInv (v : Vals) : Prop := v.points = 3 * v.wins + v.draws

/-- Componentwise order on the counters. -/
@[reducible]
def valsLe (a b : Vals) : Prop :=
  a.wins ≤ b.wins ∧ a.draws ≤ b.draws ∧ a.losses ≤ b.losses ∧ a.points ≤ b.points

/-- No two standings rows share a `(league_id, user_id)` key. -/
def distinctKeys (st : List StandingRow) : Prop :=
  st.Pairwise (fun a b => ¬(a.league_id = b.league_id ∧ a.user_id = b.user_id))

/-- Number of open leagues of one `(guild_id, format)` scope. -/
def openCount (db : DB) (guild_id fmt : String) : Nat :=
  (db.leagues.filter (leagueOpenP guild_id fmt)).length

/-- The inductive invariant of the engine: standings counters agree with
the summed ledger contributions, standings keys are unique, row ids are
unique and below the AUTOINCREMENT counters, and every scope has at most
one open league. -/
structure Inv (db : DB) : Prop where
  std_replay : ∀ league_id user_id,
    lookupVals db.standings league_id user_id = sumDelta db.matches' league_id user_id
  std_keys : distinctKeys db.standings
  match_id_lt : ∀ m ∈ db.matches', m.id < db.nextMatchId
  match_id_nodup : (db.matches'.map (fun m => m.id)).Nodup
  league_id_lt : ∀ l ∈ db.leagues, l.id < db.nextLeagueId
  league_id_nodup : (db.leagues.map (fun l => l.id)).Nodup
  open_le : ∀ guild_id fmt, openCount db guild_id fmt ≤ 1

/-! ### Basic lemmas about `Vals` and `keyMatch` -/

@[simp]
lemma Vals_wins_add (a b : Vals) : (a + b).wins = a.wins + b.wins := rfl

@[simp]
lemma Vals_draws_add (a b : Vals) : (a + b).draws = a.draws + b.draws := rfl

@[simp]
lemma Vals_losses_add (a b : Vals) : (a + b).losses = a.losses + b.losses := rfl

@[simp]
lemma Vals_points_add (a b : Vals) : (a + b).points = a.points + b.points := rfl

@[simp]
lemma Vals_wins_zero : (0 : Vals).wins = 0 := rfl

@[simp]
lemma Vals_draws_zero : (0 : Vals).draws = 0 := rfl

@[simp]
lemma Vals_losses_zero : (0 : Vals).losses = 0 := rfl

@[simp]
lemma Vals_points_zero : (0 : Vals).points = 0 := rfl

lemma keyMatch_iff {league_id : Nat} {user_id : String} {s : StandingRow} :
    keyMatch league_id user_id s = true ↔ s.league_id = league_id ∧ s.user_id = user_id := by
  simp [keyMatch]

lemma keyMatch_false {league_id : Nat} {user_id : String} {s : StandingRow}
    (h : ¬(s.league_id = league_id ∧ s.user_id = user_id)) :
    keyMatch league_id user_id s = false := by
  cases hb : keyMatch league_id user_id s
  · rfl
  · exact absurd (keyMatch_iff.1 hb) h

/-! ### `lookupVals` and `hasStanding` -/

@[simp]
lemma lookupVals_nil (league_id : Nat) (user_id : String) :
    lookupVals [] league_id user_id = 0 := rfl

lemma lookupVals_cons_pos {league_id : Nat} {user_id : String} {s : StandingRow}
    (st : List StandingRow) (h : keyMatch league_id user_id s = true) :
    lookupVals (s :: st) league_id user_id = svals s := by
  unfold lookupVals
  rw [List.find?_cons_of_pos _ h]
  rfl

lemma lookupVals_cons_neg {league_id : Nat} {user_id : String} {s : StandingRow}
    (st : List StandingRow) (h : keyMatch league_id user_id s = false) :
    lookupVals (s :: st) league_id user_id = lookupVals st league_id user_id := by
  unfold lookupVals
  rw [List.find?_cons_of_neg _ (by simp [h])]

lemma hasStanding_cons {league_id : Nat} {user_id : String} {s : StandingRow}
    (st : List StandingRow) :
    hasStanding (s :: st) league_id user_id
      = (keyMatch league_id user_id s || hasStanding st league_id user_id) := by
  unfold hasStanding
  cases hb : keyMatch league_id user_id s
  · rw [List.find?_cons_of_neg _ (by simp [hb]), Bool.false_or]
  · rw [List.find?_cons_of_pos _ hb, Bool.true_or]
    rfl

lemma lookupVals_of_not_hasStanding {st : List StandingRow} {league_id : Nat} {user_id : String}
    (h : hasStanding st league_id user_id = false) :
    lookupVals st league_id user_id = 0 := by
  unfold hasStanding at h
  unfold lookupVals
  cases hf : st.find? (keyMatch league_id user_id) with
  | none => rfl
  | some s => rw [hf] at h; simp at h

/-! ### `ensure_standing` -/

lemma lookupVals_ensure (st : List StandingRow) (league_id : Nat) (user_id : String)
    (league_id2 : Nat) (user_id2 : String) :
    lookupVals (ensure_standing st league_id user_id) league_id2 user_id2
      = lookupVals st league_id2 user_id2 := by
  unfold ensure_standing
  split
  · rfl
  · next hna =>
    unfold lookupVals
    rw [List.find?_append]
    cases hf : st.find? (keyMatch league_id2 user_id2) with
    | some s => rfl
    | none =>
      simp only [Option.none_or]
      cases hb : keyMatch league_id2 user_id2
        { league_id := league_id, user_id := user_id
        , wins := 0, draws := 0, losses := 0, points := 0 }
      · rw [List.find?_cons_of_neg _ (by simp [hb])]
        rfl
      · rw [List.find?_cons_of_pos _ hb]
        rfl

lemma hasStanding_ensure_self (st : List StandingRow) (league_id : Nat) (user_id : String) :
    hasStanding (ensure_standing st league_id user_id) league_id user_id = true := by
  unfold ensure_standing
  split
  · next h => exact h
  · unfold hasStanding
    rw [List.find?_append]
    cases hf : st.find? (keyMatch league_id user_id) with
    | some s => rfl
    | none =>
      simp only [Option.none_or]
      rw [List.find?_cons_of_pos _ (by simp [keyMatch])]
      rfl

lemma hasStanding_ensure_mono {st : List StandingRow} {league_id2 : Nat} {user_id2 : String}
    (league_id : Nat) (user_id : String)
    (h : hasStanding st league_id2 user_id2 = true) :
    hasStanding (ensure_standing st league_id user_id) league_id2 user_id2 = true := by
  unfold ensure_standing
  split
  · exact h
  · unfold hasStanding at h ⊢
    rw [List.find?_append]
    cases hf : st.find? (keyMatch league_id2 user_id2) with
    | some s => rfl
    | none => rw [hf] at h; simp at h


/-! ### `updStandings` -/

lemma keyMatch_congr {f : StandingRow → StandingRow}
    (hkp : ∀ s, (f s).league_id = s.league_id ∧ (f s).user_id = s.user_id)
    (league_id : Nat) (user_id : String) (s : StandingRow) :
    keyMatch league_id user_id (f s) = keyMatch league_id user_id s := by
  unfold keyMatch
  rw [(hkp s).1, (hkp s).2]

lemma updStandings_cons_pos {league_id : Nat} {user_id : String} {s : StandingRow}
    (t : List StandingRow) (f : StandingRow → StandingRow)
    (h : keyMatch league_id user_id s = true) :
    updStandings (s :: t) league_id user_id f = f s :: updStandings t league_id user_id f := by
  simp [updStandings, h]

lemma updStandings_cons_neg {league_id : Nat} {user_id : String} {s : StandingRow}
    (t : List StandingRow) (f : StandingRow → StandingRow)
    (h : keyMatch league_id user_id s = false) :
    updStandings (s :: t) league_id user_id f = s :: updStandings t league_id user_id f := by
  simp [updStandings, h]

lemma hasStanding_upd {f : StandingRow → StandingRow}
    (hkp : ∀ s, (f s).league_id = s.league_id ∧ (f s).user_id = s.user_id)
    (st : List StandingRow) (league_id : Nat) (user_id : String)
    (league_id2 : Nat) (user_id2 : String) :
    hasStanding (updStandings st league_id user_id f) league_id2 user_id2
      = hasStanding st league_id2 user_id2 := by
  induction st with
  | nil => rfl
  | cons s t ih =>
    cases hk : keyMatch league_id user_id s
    · rw [updStandings_cons_neg _ _ hk, hasStanding_cons, hasStanding_cons, ih]
    · rw [updStandings_cons_pos _ _ hk, hasStanding_cons, hasStanding_cons, ih,
        keyMatch_congr hkp]

lemma lookupVals_upd_ne {f : StandingRow → StandingRow}
    (hkp : ∀ s, (f s).league_id = s.league_id ∧ (f s).user_id = s.user_id)
    {st : List StandingRow} {league_id : Nat} {user_id : String}
    {league_id2 : Nat} {user_id2 : String}
    (h : ¬(league_id2 = league_id ∧ user_id2 = user_id)) :
    lookupVals (updStandings st league_id user_id f) league_id2 user_id2
      = lookupVals st league_id2 user_id2 := by
  induction st with
  | nil => rfl
  | cons s t ih =>
    cases hk : keyMatch league_id user_id s
    · rw [updStandings_cons_neg _ _ hk]
      cases h2 : keyMatch league_id2 user_id2 s
      · rw [lookupVals_cons_neg _ h2, lookupVals_cons_neg _ h2]
        exact ih
      · rw [lookupVals_cons_pos _ h2, lookupVals_cons_pos _ h2]
    · rw [updStandings_cons_pos _ _ hk]
      have hsp := keyMatch_iff.1 hk
      have h2 : keyMatch league_id2 user_id2 s = false := by
        apply keyMatch_false
        rintro ⟨e1, e2⟩
        exact h ⟨by rw [← e1, hsp.1], by rw [← e2, hsp.2]⟩
      have h2f : keyMatch league_id2 user_id2 (f s) = false := by
        rw [keyMatch_congr hkp]
        exact h2
      rw [lookupVals_cons_neg _ h2f, lookupVals_cons_neg _ h2]
      exact ih

lemma lookupVals_upd_self {f : StandingRow → StandingRow} {d : Vals}
    (hkp : ∀ s, (f s).league_id = s.league_id ∧ (f s).user_id = s.user_id)
    (hv : ∀ s, svals (f s) = svals s + d)
    {st : List StandingRow} {league_id : Nat} {user_id : String}
    (hs : hasStanding st league_id user_id = true) :
    lookupVals (updStandings st league_id user_id f) league_id user_id
      = lookupVals st league_id user_id + d := by
  induction st with
  | nil => simp [hasStanding] at hs
  | cons s t ih =>
    cases hk : keyMatch league_id user_id s
    · rw [updStandings_cons_neg _ _ hk, lookupVals_cons_neg _ hk, lookupVals_cons_neg _ hk]
      apply ih
      rw [hasStanding_cons, hk, Bool.false_or] at hs
      exact hs
    · rw [updStandings_cons_pos _ _ hk]
      have hkf : keyMatch league_id user_id (f s) = true := by
        rw [keyMatch_congr hkp]
        exact hk
      rw [lookupVals_cons_pos _ hkf, lookupVals_cons_pos _ hk]
      exact hv s


/-! ### Scoring formulas -/

lemma keys_bumpWin (s : StandingRow) :
    (bumpWin s).league_id = s.league_id ∧ (bumpWin s).user_id = s.user_id := ⟨rfl, rfl⟩

lemma keys_bumpLoss (s : StandingRow) :
    (bumpLoss s).league_id = s.league_id ∧ (bumpLoss s).user_id = s.user_id := ⟨rfl, rfl⟩

lemma keys_bumpDraw (s : StandingRow) :
    (bumpDraw s).league_id = s.league_id ∧ (bumpDraw s).user_id = s.user_id := ⟨rfl, rfl⟩

lemma keys_dropWin (s : StandingRow) :
    (dropWin s).league_id = s.league_id ∧ (dropWin s).user_id = s.user_id := ⟨rfl, rfl⟩

lemma keys_dropLoss (s : StandingRow) :
    (dropLoss s).league_id = s.league_id ∧ (dropLoss s).user_id = s.user_id := ⟨rfl, rfl⟩

lemma keys_dropDraw (s : StandingRow) :
    (dropDraw s).league_id = s.league_id ∧ (dropDraw s).user_id = s.user_id := ⟨rfl, rfl⟩

lemma svals_bumpWin (s : StandingRow) : svals (bumpWin s) = svals s + winnerD := by
  simp [bumpWin, svals, winnerD, Prod.ext_iff]

lemma svals_bumpLoss (s : StandingRow) : svals (bumpLoss s) = svals s + loserD := by
  simp [bumpLoss, svals, loserD, Prod.ext_iff]

lemma svals_bumpDraw (s : StandingRow) : svals (bumpDraw s) = svals s + drawD := by
  simp [bumpDraw, svals, drawD, Prod.ext_iff]

lemma svals_dropWin (s : StandingRow) : svals (dropWin s) = svals s + -winnerD := by
  simp [dropWin, svals, winnerD, Prod.ext_iff, sub_eq_add_neg]

lemma svals_dropLoss (s : StandingRow) : svals (dropLoss s) = svals s + -loserD := by
  simp [dropLoss, svals, loserD, Prod.ext_iff, sub_eq_add_neg]

lemma svals_dropDraw (s : StandingRow) : svals (dropDraw s) = svals s + -drawD := by
  simp [dropDraw, svals, drawD, Prod.ext_iff, sub_eq_add_neg]

lemma hasStanding_apply_win_winner (st : List StandingRow) (league_id : Nat) (w lo : String) :
    hasStanding (apply_win st league_id w lo) league_id w = true := by
  unfold apply_win
  rw [hasStanding_upd keys_bumpLoss, hasStanding_upd keys_bumpWin]
  exact hasStanding_ensure_mono _ _ (hasStanding_ensure_self _ _ _)

lemma hasStanding_apply_win_loser (st : List StandingRow) (league_id : Nat) (w lo : String) :
    hasStanding (apply_win st league_id w lo) league_id lo = true := by
  unfold apply_win
  rw [hasStanding_upd keys_bumpLoss, hasStanding_upd keys_bumpWin]
  exact hasStanding_ensure_self _ _ _

lemma lookupVals_apply_win (st : List StandingRow) (league_id : Nat) (w lo : String)
    (l2 : Nat) (u2 : String) :
    lookupVals (apply_win st league_id w lo) l2 u2
      = lookupVals st l2 u2
        + ((if l2 = league_id ∧ u2 = w then winnerD else 0)
            + (if l2 = league_id ∧ u2 = lo then loserD else 0)) := by
  unfold apply_win
  by_cases hw : l2 = league_id ∧ u2 = w
  · obtain ⟨rfl, rfl⟩ := hw
    by_cases hl : u2 = lo
    · subst hl
      rw [lookupVals_upd_self keys_bumpLoss svals_bumpLoss
          (by rw [hasStanding_upd keys_bumpWin]
              exact hasStanding_ensure_self _ _ _),
        lookupVals_upd_self keys_bumpWin svals_bumpWin
          (hasStanding_ensure_mono _ _ (hasStanding_ensure_self _ _ _)),
        lookupVals_ensure, lookupVals_ensure]
      rw [if_pos ⟨rfl, rfl⟩, if_pos ⟨rfl, rfl⟩]
      abel
    · rw [lookupVals_upd_ne keys_bumpLoss (by rintro ⟨h1, h2⟩; exact hl h2),
        lookupVals_upd_self keys_bumpWin svals_bumpWin
          (hasStanding_ensure_mono _ _ (hasStanding_ensure_self _ _ _)),
        lookupVals_ensure, lookupVals_ensure]
      rw [if_pos ⟨rfl, rfl⟩, if_neg (by rintro ⟨h1, h2⟩; exact hl h2)]
      abel
  · by_cases hl : l2 = league_id ∧ u2 = lo
    · obtain ⟨rfl, rfl⟩ := hl
      rw [lookupVals_upd_self keys_bumpLoss svals_bumpLoss
          (by rw [hasStanding_upd keys_bumpWin]
              exact hasStanding_ensure_self _ _ _),
        lookupVals_upd_ne keys_bumpWin hw,
        lookupVals_ensure, lookupVals_ensure]
      rw [if_neg hw, if_pos ⟨rfl, rfl⟩]
      abel
    · rw [lookupVals_upd_ne keys_bumpLoss hl,
        lookupVals_upd_ne keys_bumpWin hw,
        lookupVals_ensure, lookupVals_ensure]
      rw [if_neg hw, if_neg hl]
      abel

lemma lookupVals_apply_draw (st : List StandingRow) (league_id : Nat) (a b : String)
    (l2 : Nat) (u2 : String) :
    lookupVals (apply_draw st league_id a b) l2 u2
      = lookupVals st l2 u2
        + ((if l2 = league_id ∧ u2 = a then drawD else 0)
            + (if l2 = league_id ∧ u2 = b then drawD else 0)) := by
  unfold apply_draw
  by_cases hb : l2 = league_id ∧ u2 = b
  · obtain ⟨rfl, rfl⟩ := hb
    by_cases ha : u2 = a
    · subst ha
      rw [lookupVals_upd_self keys_bumpDraw svals_bumpDraw
          (hasStanding_ensure_self _ _ _),
        lookupVals_ensure,
        lookupVals_upd_self keys_bumpDraw svals_bumpDraw
          (hasStanding_ensure_self _ _ _),
        lookupVals_ensure]
      rw [if_pos ⟨rfl, rfl⟩]
      abel
    · rw [lookupVals_upd_self keys_bumpDraw svals_bumpDraw
          (hasStanding_ensure_self _ _ _),
        lookupVals_ensure,
        lookupVals_upd_ne keys_bumpDraw (by rintro ⟨h1, h2⟩; exact ha h2),
        lookupVals_ensure]
      rw [if_neg (by rintro ⟨h1, h2⟩; exact ha h2), if_pos ⟨rfl, rfl⟩]
      abel
  · by_cases ha : l2 = league_id ∧ u2 = a
    · obtain ⟨rfl, rfl⟩ := ha
      rw [lookupVals_upd_ne keys_bumpDraw hb,
        lookupVals_ensure,
        lookupVals_upd_self keys_bumpDraw svals_bumpDraw
          (hasStanding_ensure_self _ _ _),
        lookupVals_ensure]
      rw [if_pos ⟨rfl, rfl⟩, if_neg hb]
      abel
    · rw [lookupVals_upd_ne keys_bumpDraw hb,
        lookupVals_ensure,
        lookupVals_upd_ne keys_bumpDraw ha,
        lookupVals_ensure]
      rw [if_neg ha, if_neg hb]
      abel

lemma lookupVals_undo_win {st : List StandingRow} {league_id : Nat} {p1 p2 : String}
    (h1 : hasStanding st league_id p1 = true) (h2 : hasStanding st league_id p2 = true)
    (l2 : Nat) (u2 : String) :
    lookupVals (undo_win st league_id p1 p2) l2 u2
      = lookupVals st l2 u2
        - ((if l2 = league_id ∧ u2 = p1 then winnerD else 0)
            + (if l2 = league_id ∧ u2 = p2 then loserD else 0)) := by
  unfold undo_win
  by_cases hc1 : l2 = league_id ∧ u2 = p1
  · obtain ⟨rfl, rfl⟩ := hc1
    by_cases hc2 : u2 = p2
    · subst hc2
      rw [lookupVals_upd_self keys_dropLoss svals_dropLoss
          (by rw [hasStanding_upd keys_dropWin]; exact h2),
        lookupVals_upd_self keys_dropWin svals_dropWin h1]
      rw [if_pos ⟨rfl, rfl⟩, if_pos ⟨rfl, rfl⟩]
      abel
    · rw [lookupVals_upd_ne keys_dropLoss (by rintro ⟨e1, e2⟩; exact hc2 e2),
        lookupVals_upd_self keys_dropWin svals_dropWin h1]
      rw [if_pos ⟨rfl, rfl⟩, if_neg (by rintro ⟨e1, e2⟩; exact hc2 e2)]
      abel
  · by_cases hc2 : l2 = league_id ∧ u2 = p2
    · obtain ⟨rfl, rfl⟩ := hc2
      rw [lookupVals_upd_self keys_dropLoss svals_dropLoss
          (by rw [hasStanding_upd keys_dropWin]; exact h2),
        lookupVals_upd_ne keys_dropWin hc1]
      rw [if_neg hc1, if_pos ⟨rfl, rfl⟩]
      abel
    · rw [lookupVals_upd_ne keys_dropLoss hc2,
        lookupVals_upd_ne keys_dropWin hc1]
      rw [if_neg hc1, if_neg hc2]
      abel

lemma lookupVals_undo_draw {st : List StandingRow} {league_id : Nat} {p1 p2 : String}
    (h1 : hasStanding st league_id p1 = true) (h2 : hasStanding st league_id p2 = true)
    (l2 : Nat) (u2 : String) :
    lookupVals (undo_draw st league_id p1 p2) l2 u2
      = lookupVals st l2 u2
        - ((if l2 = league_id ∧ u2 = p1 then drawD else 0)
            + (if l2 = league_id ∧ u2 = p2 then drawD else 0)) := by
  unfold undo_draw
  by_cases hc1 : l2 = league_id ∧ u2 = p1
  · obtain ⟨rfl, rfl⟩ := hc1
    by_cases hc2 : u2 = p2
    · subst hc2
      rw [lookupVals_upd_self keys_dropDraw svals_dropDraw
          (by rw [hasStanding_upd keys_dropDraw]; exact h2),
        lookupVals_upd_self keys_dropDraw svals_dropDraw h1]
      rw [if_pos ⟨rfl, rfl⟩]
      abel
    · rw [lookupVals_upd_ne keys_dropDraw (by rintro ⟨e1, e2⟩; exact hc2 e2),
        lookupVals_upd_self keys_dropDraw svals_dropDraw h1]
      rw [if_pos ⟨rfl, rfl⟩, if_neg (by rintro ⟨e1, e2⟩; exact hc2 e2)]
      abel
  · by_cases hc2 : l2 = league_id ∧ u2 = p2
    · obtain ⟨rfl, rfl⟩ := hc2
      rw [lookupVals_upd_self keys_dropDraw svals_dropDraw
          (by rw [hasStanding_upd keys_dropDraw]; exact h2),
        lookupVals_upd_ne keys_dropDraw hc1]
      rw [if_neg hc1, if_pos ⟨rfl, rfl⟩]
      abel
    · rw [lookupVals_upd_ne keys_dropDraw hc2,
        lookupVals_upd_ne keys_dropDraw hc1]
      rw [if_neg hc1, if_neg hc2]
      abel


/-! ### `matchDelta` and `sumDelta` -/

lemma matchDelta_win {m : MatchRow} (h : m.result = "win") (l2 : Nat) (u2 : String) :
    matchDelta m l2 u2
      = (if l2 = m.league_id ∧ u2 = m.p1 then winnerD else 0)
        + (if l2 = m.league_id ∧ u2 = m.p2 then loserD else 0) := by
  unfold matchDelta
  rw [h]
  by_cases hL : m.league_id = l2
  · subst hL
    rw [if_pos rfl, if_pos rfl]
    simp
  · rw [if_neg hL, if_neg (by rintro ⟨e, _⟩; exact hL e.symm),
      if_neg (by rintro ⟨e, _⟩; exact hL e.symm)]
    simp

lemma matchDelta_draw {m : MatchRow} (h : ¬(m.result = "win")) (l2 : Nat) (u2 : String) :
    matchDelta m l2 u2
      = (if l2 = m.league_id ∧ u2 = m.p1 then drawD else 0)
        + (if l2 = m.league_id ∧ u2 = m.p2 then drawD else 0) := by
  unfold matchDelta
  by_cases hL : m.league_id = l2
  · subst hL
    rw [if_pos rfl, if_neg h]
    simp
  · rw [if_neg hL, if_neg (by rintro ⟨e, _⟩; exact hL e.symm),
      if_neg (by rintro ⟨e, _⟩; exact hL e.symm)]
    simp

lemma matchDelta_ne_league {m : MatchRow} {l2 : Nat} (h : ¬(m.league_id = l2))
    (u2 : String) : matchDelta m l2 u2 = 0 := by
  unfold matchDelta
  rw [if_neg h]

lemma matchDelta_nonneg (m : MatchRow) (l2 : Nat) (u2 : String) :
    valsNonneg (matchDelta m l2 u2) := by
  unfold matchDelta
  split_ifs <;> decide

lemma matchDelta_pointInv (m : MatchRow) (l2 : Nat) (u2 : String) :
    valsPointInv (matchDelta m l2 u2) := by
  unfold matchDelta
  split_ifs <;> decide

lemma valsNonneg_add {a b : Vals} (ha : valsNonneg a) (hb : valsNonneg b) :
    valsNonneg (a + b) := by
  obtain ⟨h1, h2, h3, h4⟩ := ha
  obtain ⟨g1, g2, g3, g4⟩ := hb
  exact ⟨by simpa using add_nonneg h1 g1, by simpa using add_nonneg h2 g2,
    by simpa using add_nonneg h3 g3, by simpa using add_nonneg h4 g4⟩

lemma valsPointInv_add {a b : Vals} (ha : valsPointInv a) (hb : valsPointInv b) :
    valsPointInv (a + b) := by
  unfold valsPointInv at *
  simp only [Vals_points_add, Vals_wins_add, Vals_draws_add]
  rw [ha, hb]
  ring

lemma sumDelta_nonneg (ms : List MatchRow) (l2 : Nat) (u2 : String) :
    valsNonneg (sumDelta ms l2 u2) := by
  induction ms with
  | nil => exact ⟨le_refl 0, le_refl 0, le_refl 0, le_refl 0⟩
  | cons m t ih => exact valsNonneg_add (matchDelta_nonneg m l2 u2) ih

lemma sumDelta_pointInv (ms : List MatchRow) (l2 : Nat) (u2 : String) :
    valsPointInv (sumDelta ms l2 u2) := by
  induction ms with
  | nil => exact rfl
  | cons m t ih => exact valsPointInv_add (matchDelta_pointInv m l2 u2) ih

lemma sumDelta_append (ms1 ms2 : List MatchRow) (l2 : Nat) (u2 : String) :
    sumDelta (ms1 ++ ms2) l2 u2 = sumDelta ms1 l2 u2 + sumDelta ms2 l2 u2 := by
  induction ms1 with
  | nil => simp [sumDelta]
  | cons m t ih =>
    show matchDelta m l2 u2 + sumDelta (t ++ ms2) l2 u2 = _
    rw [ih]
    show _ = matchDelta m l2 u2 + sumDelta t l2 u2 + sumDelta ms2 l2 u2
    abel

lemma matchDelta_le_sumDelta {m : MatchRow} {ms : List MatchRow} (h : m ∈ ms)
    (l2 : Nat) (u2 : String) :
    valsLe (matchDelta m l2 u2) (sumDelta ms l2 u2) := by
  induction ms with
  | nil => cases h
  | cons m2 t ih =>
    rcases List.mem_cons.1 h with rfl | hm
    · have hn := sumDelta_nonneg t l2 u2
      obtain ⟨n1, n2, n3, n4⟩ := hn
      show valsLe _ (matchDelta m l2 u2 + sumDelta t l2 u2)
      exact ⟨by simp; omega, by simp; omega, by simp; omega, by simp; omega⟩
    · have hd := matchDelta_nonneg m2 l2 u2
      obtain ⟨n1, n2, n3, n4⟩ := hd
      obtain ⟨i1, i2, i3, i4⟩ := ih hm
      show valsLe _ (matchDelta m2 l2 u2 + sumDelta t l2 u2)
      exact ⟨by simp; omega, by simp; omega, by simp; omega, by simp; omega⟩

lemma sumDelta_remove {m : MatchRow} {ms : List MatchRow} (hmem : m ∈ ms)
    (hnd : (ms.map (fun x => x.id)).Nodup) (l2 : Nat) (u2 : String) :
    sumDelta (ms.filter (fun x => x.id != m.id)) l2 u2
      = sumDelta ms l2 u2 - matchDelta m l2 u2 := by
  induction ms with
  | nil => cases hmem
  | cons m2 t ih =>
    rw [List.map_cons, List.nodup_cons] at hnd
    obtain ⟨hni, hnd2⟩ := hnd
    by_cases hid : m2.id = m.id
    · have hmm : m2 = m := by
        rcases List.mem_cons.1 hmem with rfl | hm
        · rfl
        · exact absurd (by rw [hid]; exact List.mem_map_of_mem (fun x => x.id) hm) hni
      subst hmm
      rw [List.filter_cons_of_neg (by simp)]
      have hfix : t.filter (fun x => x.id != m2.id) = t := by
        apply List.filter_eq_self.2
        intro a ha
        simp only [bne_iff_ne, ne_eq]
        intro he
        exact hni (by rw [← he]; exact List.mem_map_of_mem (fun x => x.id) ha)
      rw [hfix]
      show sumDelta t l2 u2 = matchDelta m2 l2 u2 + sumDelta t l2 u2 - matchDelta m2 l2 u2
      abel
    · have hm : m ∈ t := by
        rcases List.mem_cons.1 hmem with rfl | hm
        · exact absurd rfl hid
        · exact hm
      rw [List.filter_cons_of_pos (by simp [hid])]
      show matchDelta m2 l2 u2 + sumDelta (t.filter (fun x => x.id != m.id)) l2 u2 = _
      rw [ih hm hnd2]
      show _ = matchDelta m2 l2 u2 + sumDelta t l2 u2 - matchDelta m l2 u2
      abel

lemma sumDelta_league_filter (ms : List MatchRow) (L : Nat) (u2 : String) :
    sumDelta (ms.filter (fun m => m.league_id == L)) L u2 = sumDelta ms L u2 := by
  induction ms with
  | nil => rfl
  | cons m t ih =>
    by_cases h : m.league_id = L
    · rw [List.filter_cons_of_pos (by simp [h])]
      show matchDelta m L u2 + _ = matchDelta m L u2 + _
      rw [ih]
    · rw [List.filter_cons_of_neg (by simp [h])]
      show _ = matchDelta m L u2 + sumDelta t L u2
      rw [matchDelta_ne_league h, ih]
      simp

lemma sumDelta_reset_filter (ms : List MatchRow) (L : Nat) (l2 : Nat) (u2 : String) :
    sumDelta (ms.filter (fun m => m.league_id != L)) l2 u2
      = if l2 = L then 0 else sumDelta ms l2 u2 := by
  induction ms with
  | nil => simp [sumDelta]
  | cons m t ih =>
    by_cases h : m.league_id = L
    · rw [List.filter_cons_of_neg (by simp [h])]
      rw [ih]
      by_cases h2 : l2 = L
      · rw [if_pos h2, if_pos h2]
      · rw [if_neg h2, if_neg h2]
        show _ = matchDelta m l2 u2 + sumDelta t l2 u2
        rw [matchDelta_ne_league (by rw [h]; exact fun e => h2 e.symm)]
        simp
    · rw [List.filter_cons_of_pos (by simp [h])]
      show matchDelta m l2 u2 + _ = _
      rw [ih]
      by_cases h2 : l2 = L
      · rw [if_pos h2, if_pos h2]
        subst h2
        rw [matchDelta_ne_league (fun e => h e)]
        simp
      · rw [if_neg h2, if_neg h2]
        rfl


/-! ### Key uniqueness of the standings table -/

lemma distinctKeys_upd {f : StandingRow → StandingRow}
    (hkp : ∀ s, (f s).league_id = s.league_id ∧ (f s).user_id = s.user_id)
    {st : List StandingRow} (league_id : Nat) (user_id : String)
    (h : distinctKeys st) : distinctKeys (updStandings st league_id user_id f) := by
  unfold distinctKeys updStandings at *
  rw [List.pairwise_map]
  apply h.imp
  intro a b hab
  rcases Bool.eq_false_or_eq_true (keyMatch league_id user_id a) with ha | ha <;>
    rcases Bool.eq_false_or_eq_true (keyMatch league_id user_id b) with hb | hb <;>
      simp only [ha, hb, if_true, if_false] <;>
        simpa [(hkp a).1, (hkp a).2, (hkp b).1, (hkp b).2] using hab

lemma distinctKeys_ensure {st : List StandingRow} (league_id : Nat) (user_id : String)
    (h : distinctKeys st) : distinctKeys (ensure_standing st league_id user_id) := by
  unfold ensure_standing
  split
  · exact h
  · next hno =>
    unfold distinctKeys
    rw [List.pairwise_append]
    refine ⟨h, List.pairwise_singleton _ _, ?_⟩
    intro a ha b hb
    rw [List.mem_singleton] at hb
    subst hb
    have : keyMatch league_id user_id a = false := by
      cases hk : keyMatch league_id user_id a
      · rfl
      · exact absurd (List.find?_isSome.2 ⟨a, ha, hk⟩) hno
    intro he
    have htrue := keyMatch_iff.2 he
    rw [htrue] at this
    cases this

lemma distinctKeys_filter (p : StandingRow → Bool) {st : List StandingRow}
    (h : distinctKeys st) : distinctKeys (st.filter p) :=
  List.Pairwise.filter p h

lemma distinctKeys_apply_win {st : List StandingRow} (league_id : Nat) (w lo : String)
    (h : distinctKeys st) : distinctKeys (apply_win st league_id w lo) := by
  unfold apply_win
  exact distinctKeys_upd keys_bumpLoss _ _ (distinctKeys_upd keys_bumpWin _ _
    (distinctKeys_ensure _ _ (distinctKeys_ensure _ _ h)))

lemma distinctKeys_apply_draw {st : List StandingRow} (league_id : Nat) (a b : String)
    (h : distinctKeys st) : distinctKeys (apply_draw st league_id a b) := by
  unfold apply_draw
  exact distinctKeys_upd keys_bumpDraw _ _ (distinctKeys_ensure _ _
    (distinctKeys_upd keys_bumpDraw _ _ (distinctKeys_ensure _ _ h)))

lemma distinctKeys_undo_win {st : List StandingRow} (league_id : Nat) (p1 p2 : String)
    (h : distinctKeys st) : distinctKeys (undo_win st league_id p1 p2) := by
  unfold undo_win
  exact distinctKeys_upd keys_dropLoss _ _ (distinctKeys_upd keys_dropWin _ _ h)

lemma distinctKeys_undo_draw {st : List StandingRow} (league_id : Nat) (p1 p2 : String)
    (h : distinctKeys st) : distinctKeys (undo_draw st league_id p1 p2) := by
  unfold undo_draw
  exact distinctKeys_upd keys_dropDraw _ _ (distinctKeys_upd keys_dropDraw _ _ h)

lemma find?_self_of_distinct {st : List StandingRow} (h : distinctKeys st)
    {s : StandingRow} (hs : s ∈ st) :
    st.find? (keyMatch s.league_id s.user_id) = some s := by
  induction st with
  | nil => cases hs
  | cons a t ih =>
    unfold distinctKeys at h
    rw [List.pairwise_cons] at h
    obtain ⟨ha, ht⟩ := h
    rcases List.mem_cons.1 hs with rfl | hmem
    · exact List.find?_cons_of_pos _ (keyMatch_iff.2 ⟨rfl, rfl⟩)
    · have hk : keyMatch s.league_id s.user_id a = false := by
        cases hk : keyMatch s.league_id s.user_id a
        · rfl
        · obtain ⟨e1, e2⟩ := keyMatch_iff.1 hk
          exact absurd ⟨e1, e2⟩ (ha s hmem)
      rw [List.find?_cons_of_neg _ (by simp [hk])]
      exact ih ht hmem

lemma svals_eq_lookup {st : List StandingRow} (h : distinctKeys st)
    {s : StandingRow} (hs : s ∈ st) :
    svals s = lookupVals st s.league_id s.user_id := by
  unfold lookupVals
  rw [find?_self_of_distinct h hs]
  rfl

/-! ### `replay` and `latestMatch` -/

lemma lookupVals_replayMatch (st : List StandingRow) (m : MatchRow)
    (l2 : Nat) (u2 : String) :
    lookupVals (replayMatch st m) l2 u2 = lookupVals st l2 u2 + matchDelta m l2 u2 := by
  unfold replayMatch
  cases hr : m.result == "win"
  · rw [if_neg (by simp [hr])]
    rw [lookupVals_apply_draw, matchDelta_draw (by simpa using hr)]
  · rw [if_pos (by simp at hr; simp [hr])]
    rw [lookupVals_apply_win, matchDelta_win (by simpa using hr)]

lemma lookupVals_replay_aux (ms : List MatchRow) (st : List StandingRow)
    (l2 : Nat) (u2 : String) :
    lookupVals (List.foldl replayMatch st ms) l2 u2
      = lookupVals st l2 u2 + sumDelta ms l2 u2 := by
  induction ms generalizing st with
  | nil => show lookupVals st l2 u2 = lookupVals st l2 u2 + 0; rw [add_zero]
  | cons m t ih =>
    show lookupVals (List.foldl replayMatch (replayMatch st m) t) l2 u2 = _
    rw [ih, lookupVals_replayMatch]
    show _ = lookupVals st l2 u2 + (matchDelta m l2 u2 + sumDelta t l2 u2)
    abel

lemma lookupVals_replay (ms : List MatchRow) (l2 : Nat) (u2 : String) :
    lookupVals (replay ms) l2 u2 = sumDelta ms l2 u2 := by
  unfold replay
  rw [lookupVals_replay_aux]
  simp

lemma latestMatch_mem {ms : List MatchRow} {m : MatchRow}
    (h : latestMatch ms = some m) : m ∈ ms := by
  induction ms with
  | nil => cases h
  | cons a t ih =>
    unfold latestMatch at h
    split at h
    · cases h
      exact List.mem_cons_self _ _
    · next m2 heq =>
      split at h
      · cases h
        exact List.mem_cons_self _ _
      · cases h
        exact List.mem_cons_of_mem _ (ih heq)

lemma latestMatch_append_big {ms : List MatchRow} {m : MatchRow}
    (h : ∀ x ∈ ms, x.id < m.id) : latestMatch (ms ++ [m]) = some m := by
  induction ms with
  | nil => rfl
  | cons a t ih =>
    have hrec := ih (fun x hx => h x (List.mem_cons_of_mem _ hx))
    show latestMatch (a :: (t ++ [m])) = some m
    unfold latestMatch
    rw [hrec]
    show (if m.id ≤ a.id then some a else some m) = some m
    rw [if_neg (by simp only [not_le]; exact h a (List.mem_cons_self _ _))]

lemma two_mem_length_le_one {α : Type} {l : List α} {a b : α}
    (ha : a ∈ l) (hb : b ∈ l) (hne : a ≠ b) : ¬(l.length ≤ 1) := by
  intro hlen
  match l, hlen with
  | [], _ => cases ha
  | [x], _ =>
    rw [List.mem_singleton] at ha hb
    exact hne (ha.trans hb.symm)


/-! ### League registry lemmas -/

lemma normalize_format_mem {f : String} (h : FORMATS.contains f = true) :
    normalize_format f = f := by
  have hf : f ∈ FORMATS := by
    rw [List.contains_iff_exists_mem_beq] at h
    obtain ⟨a, ha, hb⟩ := h
    rw [beq_iff_eq] at hb
    rw [hb]
    exact ha
  unfold FORMATS at hf
  simp only [List.mem_cons, List.not_mem_nil, or_false] at hf
  rcases hf with h1 | h1 | h1 <;> rw [h1] <;> decide

lemma pickLatestLeague_eq_none {ls : List LeagueRow} :
    pickLatestLeague ls = none ↔ ls = [] := by
  cases ls with
  | nil => exact ⟨fun _ => rfl, fun _ => rfl⟩
  | cons a t =>
    constructor
    · intro h
      unfold pickLatestLeague at h
      split at h
      · cases h
      · split at h <;> cases h
    · intro h
      cases h

lemma pickLatestLeague_mem {ls : List LeagueRow} {l : LeagueRow}
    (h : pickLatestLeague ls = some l) : l ∈ ls := by
  induction ls with
  | nil => cases h
  | cons a t ih =>
    unfold pickLatestLeague at h
    split at h
    · cases h
      exact List.mem_cons_self _ _
    · next m heq =>
      split at h <;> cases h
      · exact List.mem_cons_self _ _
      · exact List.mem_cons_of_mem _ (ih heq)

lemma get_open_league_mem {db : DB} {g f : String} {pr : LeagueRow}
    (h : get_open_league db g f = some pr) :
    pr ∈ db.leagues ∧ leagueOpenP g (normalize_format f) pr = true := by
  unfold get_open_league at h
  have := pickLatestLeague_mem h
  rw [List.mem_filter] at this
  exact this

lemma get_open_league_none {db : DB} {g f : String}
    (h : get_open_league db g f = none) :
    db.leagues.filter (leagueOpenP g (normalize_format f)) = [] := by
  unfold get_open_league at h
  exact pickLatestLeague_eq_none.1 h

lemma closeById_ids (ls : List LeagueRow) (i : Nat) :
    (closeById ls i).map (fun l => l.id) = ls.map (fun l => l.id) := by
  unfold closeById
  rw [List.map_map]
  apply List.map_congr_left
  intro l _
  by_cases h : l.id = i
  · simp [h]
  · simp [h]

lemma leagueOpenP_closeById_imp (i : Nat) (g f : String) (l : LeagueRow)
    (h : leagueOpenP g f (if l.id == i then { l with status := "closed" } else l) = true) :
    leagueOpenP g f l = true := by
  by_cases hc : l.id = i
  · rw [if_pos (by simp [hc])] at h
    unfold leagueOpenP at h
    simp at h
  · rw [if_neg (by simp [hc])] at h
    exact h

lemma openCount_closeById_le (db : DB) (i : Nat) (g f : String) :
    ((closeById db.leagues i).filter (leagueOpenP g f)).length
      ≤ (db.leagues.filter (leagueOpenP g f)).length := by
  rw [← List.countP_eq_length_filter, ← List.countP_eq_length_filter]
  unfold closeById
  rw [List.countP_map]
  apply List.countP_mono_left
  intro l _ h
  exact leagueOpenP_closeById_imp i g f l h

lemma openCount_closeById_eq_zero {db : DB} {pr : LeagueRow} {g f : String}
    (hmem : pr ∈ db.leagues) (hopen : leagueOpenP g f pr = true)
    (hle : (db.leagues.filter (leagueOpenP g f)).length ≤ 1) :
    ((closeById db.leagues pr.id).filter (leagueOpenP g f)).length = 0 := by
  rw [List.length_eq_zero]
  rw [List.filter_eq_nil]
  intro x hx
  unfold closeById at hx
  rw [List.mem_map] at hx
  obtain ⟨l, hl, rfl⟩ := hx
  by_cases hc : l.id = pr.id
  · rw [if_pos (by simp [hc])]
    unfold leagueOpenP
    simp
  · rw [if_neg (by simp [hc])]
    intro hlo
    have hne : l ≠ pr := fun e => hc (by rw [e])
    have h1 : l ∈ db.leagues.filter (leagueOpenP g f) := List.mem_filter.2 ⟨hl, hlo⟩
    have h2 : pr ∈ db.leagues.filter (leagueOpenP g f) := List.mem_filter.2 ⟨hmem, hopen⟩
    exact two_mem_length_le_one h1 h2 hne hle


/-! ### Field equations of the primitive mutations -/

@[simp]
lemma upsert_deck_standings (db : DB) (g f n : String) :
    (upsert_deck db g f n).standings = db.standings := by
  simp only [upsert_deck]
  split_ifs <;> rfl

@[simp]
lemma upsert_deck_matches (db : DB) (g f n : String) :
    (upsert_deck db g f n).matches' = db.matches' := by
  simp only [upsert_deck]
  split_ifs <;> rfl

@[simp]
lemma upsert_deck_leagues (db : DB) (g f n : String) :
    (upsert_deck db g f n).leagues = db.leagues := by
  simp only [upsert_deck]
  split_ifs <;> rfl

@[simp]
lemma upsert_deck_players (db : DB) (g f n : String) :
    (upsert_deck db g f n).players = db.players := by
  simp only [upsert_deck]
  split_ifs <;> rfl

@[simp]
lemma upsert_deck_pending (db : DB) (g f n : String) :
    (upsert_deck db g f n).pending = db.pending := by
  simp only [upsert_deck]
  split_ifs <;> rfl

@[simp]
lemma upsert_deck_nextMatchId (db : DB) (g f n : String) :
    (upsert_deck db g f n).nextMatchId = db.nextMatchId := by
  simp only [upsert_deck]
  split_ifs <;> rfl

@[simp]
lemma upsert_deck_nextLeagueId (db : DB) (g f n : String) :
    (upsert_deck db g f n).nextLeagueId = db.nextLeagueId := by
  simp only [upsert_deck]
  split_ifs <;> rfl

@[simp]
lemma upsert_deck_nextPendingId (db : DB) (g f n : String) :
    (upsert_deck db g f n).nextPendingId = db.nextPendingId := by
  simp only [upsert_deck]
  split_ifs <;> rfl

@[simp]
lemma insert_match_standings (db : DB) (L : Nat) (fmt p1 p2 r : String) (t : Int)
    (d1 d2 : String) : (insert_match db L fmt p1 p2 r t d1 d2).standings = db.standings := rfl

@[simp]
lemma insert_match_matches (db : DB) (L : Nat) (fmt p1 p2 r : String) (t : Int)
    (d1 d2 : String) :
    (insert_match db L fmt p1 p2 r t d1 d2).matches'
      = db.matches' ++ [⟨db.nextMatchId, L, fmt, p1, p2, r, t, d1, d2⟩] := rfl

@[simp]
lemma insert_match_leagues (db : DB) (L : Nat) (fmt p1 p2 r : String) (t : Int)
    (d1 d2 : String) : (insert_match db L fmt p1 p2 r t d1 d2).leagues = db.leagues := rfl

@[simp]
lemma insert_match_players (db : DB) (L : Nat) (fmt p1 p2 r : String) (t : Int)
    (d1 d2 : String) : (insert_match db L fmt p1 p2 r t d1 d2).players = db.players := rfl

@[simp]
lemma insert_match_pending (db : DB) (L : Nat) (fmt p1 p2 r : String) (t : Int)
    (d1 d2 : String) : (insert_match db L fmt p1 p2 r t d1 d2).pending = db.pending := rfl

@[simp]
lemma insert_match_nextMatchId (db : DB) (L : Nat) (fmt p1 p2 r : String) (t : Int)
    (d1 d2 : String) :
    (insert_match db L fmt p1 p2 r t d1 d2).nextMatchId = db.nextMatchId + 1 := rfl

@[simp]
lemma insert_match_nextLeagueId (db : DB) (L : Nat) (fmt p1 p2 r : String) (t : Int)
    (d1 d2 : String) :
    (insert_match db L fmt p1 p2 r t d1 d2).nextLeagueId = db.nextLeagueId := rfl

@[simp]
lemma delete_pending_standings (db : DB) (pid : Nat) :
    (delete_pending db pid).standings = db.standings := rfl

@[simp]
lemma delete_pending_matches (db : DB) (pid : Nat) :
    (delete_pending db pid).matches' = db.matches' := rfl

@[simp]
lemma delete_pending_leagues (db : DB) (pid : Nat) :
    (delete_pending db pid).leagues = db.leagues := rfl

@[simp]
lemma delete_pending_players (db : DB) (pid : Nat) :
    (delete_pending db pid).players = db.players := rfl

@[simp]
lemma delete_pending_decks (db : DB) (pid : Nat) :
    (delete_pending db pid).decks = db.decks := rfl

@[simp]
lemma delete_pending_nextMatchId (db : DB) (pid : Nat) :
    (delete_pending db pid).nextMatchId = db.nextMatchId := rfl

@[simp]
lemma delete_pending_nextLeagueId (db : DB) (pid : Nat) :
    (delete_pending db pid).nextLeagueId = db.nextLeagueId := rfl

@[simp]
lemma insert_pending_standings (db : DB) (L : Nat) (g f rep opp r : String)
    (w lo : Option String) (d1 d2 : String) (t : Int) :
    (insert_pending db L g f rep opp r w lo d1 d2 t).standings = db.standings := rfl

@[simp]
lemma insert_pending_matches (db : DB) (L : Nat) (g f rep opp r : String)
    (w lo : Option String) (d1 d2 : String) (t : Int) :
    (insert_pending db L g f rep opp r w lo d1 d2 t).matches' = db.matches' := rfl

@[simp]
lemma insert_pending_leagues (db : DB) (L : Nat) (g f rep opp r : String)
    (w lo : Option String) (d1 d2 : String) (t : Int) :
    (insert_pending db L g f rep opp r w lo d1 d2 t).leagues = db.leagues := rfl

@[simp]
lemma insert_pending_nextMatchId (db : DB) (L : Nat) (g f rep opp r : String)
    (w lo : Option String) (d1 d2 : String) (t : Int) :
    (insert_pending db L g f rep opp r w lo d1 d2 t).nextMatchId = db.nextMatchId := rfl

@[simp]
lemma insert_pending_nextLeagueId (db : DB) (L : Nat) (g f rep opp r : String)
    (w lo : Option String) (d1 d2 : String) (t : Int) :
    (insert_pending db L g f rep opp r w lo d1 d2 t).nextLeagueId = db.nextLeagueId := rfl

/-! ### Invariant transfer lemmas -/

lemma Inv_untouched {db : DB} (hInv : Inv db) (db2 : DB)
    (hs : db2.standings = db.standings) (hm : db2.matches' = db.matches')
    (hnm : db2.nextMatchId = db.nextMatchId) (hl : db2.leagues = db.leagues)
    (hnl : db2.nextLeagueId = db.nextLeagueId) : Inv db2 := by
  constructor
  · intro l u
    rw [hs, hm]
    exact hInv.std_replay l u
  · rw [hs]
    exact hInv.std_keys
  · rw [hm, hnm]
    exact hInv.match_id_lt
  · rw [hm]
    exact hInv.match_id_nodup
  · rw [hl, hnl]
    exact hInv.league_id_lt
  · rw [hl]
    exact hInv.league_id_nodup
  · intro g f
    unfold openCount
    rw [hl]
    exact hInv.open_le g f

lemma Inv_insert_win {db : DB} (hInv : Inv db) (db2 : DB) (L : Nat)
    (w lo fmt dg da : String) (t : Int)
    (hs : db2.standings = apply_win db.standings L w lo)
    (hm : db2.matches' = db.matches' ++
      [⟨db.nextMatchId, L, fmt, w, lo, "win", t, dg, da⟩])
    (hnm : db2.nextMatchId = db.nextMatchId + 1)
    (hl : db2.leagues = db.leagues) (hnl : db2.nextLeagueId = db.nextLeagueId) :
    Inv db2 := by
  constructor
  · intro l u
    rw [hs, hm, lookupVals_apply_win, sumDelta_append, hInv.std_replay l u]
    have hd : matchDelta (⟨db.nextMatchId, L, fmt, w, lo, "win", t, dg, da⟩ : MatchRow) l u
        = (if l = L ∧ u = w then winnerD else 0) + (if l = L ∧ u = lo then loserD else 0) :=
      matchDelta_win rfl l u
    show _ = _ + sumDelta [_] l u
    unfold sumDelta
    rw [hd]
    abel
  · rw [hs]
    exact distinctKeys_apply_win L w lo hInv.std_keys
  · rw [hm, hnm]
    intro m hm2
    rcases List.mem_append.1 hm2 with h | h
    · exact Nat.lt_succ_of_lt (hInv.match_id_lt m h)
    · rw [List.mem_singleton] at h
      subst h
      exact Nat.lt_succ_self _
  · rw [hm, List.map_append]
    rw [List.nodup_append]
    refine ⟨hInv.match_id_nodup, List.nodup_singleton _, ?_⟩
    intro a ha hb
    rw [List.mem_map] at ha
    obtain ⟨x, hx, hxe⟩ := ha
    simp only [List.map_cons, List.map_nil, List.mem_singleton] at hb
    rw [hb] at hxe
    exact Nat.ne_of_lt (hInv.match_id_lt x hx) hxe
  · rw [hl, hnl]
    exact hInv.league_id_lt
  · rw [hl]
    exact hInv.league_id_nodup
  · intro g f
    unfold openCount
    rw [hl]
    exact hInv.open_le g f

lemma Inv_insert_draw {db : DB} (hInv : Inv db) (db2 : DB) (L : Nat)
    (a b fmt d1 d2 : String) (t : Int)
    (hs : db2.standings = apply_draw db.standings L a b)
    (hm : db2.matches' = db.matches' ++
      [⟨db.nextMatchId, L, fmt, a, b, "draw", t, d1, d2⟩])
    (hnm : db2.nextMatchId = db.nextMatchId + 1)
    (hl : db2.leagues = db.leagues) (hnl : db2.nextLeagueId = db.nextLeagueId) :
    Inv db2 := by
  constructor
  · intro l u
    rw [hs, hm, lookupVals_apply_draw, sumDelta_append, hInv.std_replay l u]
    have hd : matchDelta (⟨db.nextMatchId, L, fmt, a, b, "draw", t, d1, d2⟩ : MatchRow) l u
        = (if l = L ∧ u = a then drawD else 0) + (if l = L ∧ u = b then drawD else 0) :=
      matchDelta_draw (by show ¬ ("draw" = "win"); decide) l u
    show _ = _ + sumDelta [_] l u
    unfold sumDelta
    rw [hd]
    abel
  · rw [hs]
    exact distinctKeys_apply_draw L a b hInv.std_keys
  · rw [hm, hnm]
    intro m hm2
    rcases List.mem_append.1 hm2 with h | h
    · exact Nat.lt_succ_of_lt (hInv.match_id_lt m h)
    · rw [List.mem_singleton] at h
      subst h
      exact Nat.lt_succ_self _
  · rw [hm, List.map_append]
    rw [List.nodup_append]
    refine ⟨hInv.match_id_nodup, List.nodup_singleton _, ?_⟩
    intro x2 ha hb
    rw [List.mem_map] at ha
    obtain ⟨x, hx, hxe⟩ := ha
    simp only [List.map_cons, List.map_nil, List.mem_singleton] at hb
    rw [hb] at hxe
    exact Nat.ne_of_lt (hInv.match_id_lt x hx) hxe
  · rw [hl, hnl]
    exact hInv.league_id_lt
  · rw [hl]
    exact hInv.league_id_nodup
  · intro g f
    unfold openCount
    rw [hl]
    exact hInv.open_le g f


/-! ### Invariant preservation: undo and reset -/

lemma lookupVals_reset_filter (st : List StandingRow) (L : Nat) (l : Nat) (u : String) :
    lookupVals (st.filter (fun s1 => s1.league_id != L)) l u
      = if l = L then 0 else lookupVals st l u := by
  induction st with
  | nil => by_cases h : l = L <;> simp [h]
  | cons s t ih =>
    by_cases hs : s.league_id = L
    · rw [List.filter_cons_of_neg (by simp [hs])]
      rw [ih]
      by_cases hl : l = L
      · rw [if_pos hl, if_pos hl]
      · rw [if_neg hl, if_neg hl, lookupVals_cons_neg _
          (keyMatch_false (by rintro ⟨e1, e2⟩; exact hl (by rw [← e1, hs])))]
    · rw [List.filter_cons_of_pos (by simp [hs])]
      cases hk : keyMatch l u s
      · rw [lookupVals_cons_neg _ hk, ih, lookupVals_cons_neg _ hk]
      · obtain ⟨e1, e2⟩ := keyMatch_iff.1 hk
        have hl : ¬(l = L) := fun e => hs (by rw [e1, e])
        rw [lookupVals_cons_pos _ hk, if_neg hl, lookupVals_cons_pos _ hk]

lemma Inv_league_undo_last {db : DB} (hInv : Inv db) (g f : String) :
    Inv (league_undo_last db g f).1 := by
  unfold league_undo_last
  split
  · exact hInv
  · next L hL =>
    split
    · exact hInv
    · next m hlm =>
      have hmf := latestMatch_mem hlm
      rw [List.mem_filter] at hmf
      obtain ⟨hmem, hLeq⟩ := hmf
      have hLid : m.league_id = L.id := by simpa using hLeq
      cases hr : m.result == "win"
      · have hrd : ¬(m.result = "win") := by simpa using hr
        have h1 : 1 ≤ (matchDelta m L.id m.p1).draws := by
          rw [matchDelta_draw hrd, if_pos ⟨hLid.symm, rfl⟩]
          split_ifs <;> decide
        have h2 : 1 ≤ (matchDelta m L.id m.p2).draws := by
          rw [matchDelta_draw hrd]
          rw [if_pos (show L.id = m.league_id ∧ m.p2 = m.p2 from ⟨hLid.symm, rfl⟩)]
          split_ifs <;> decide
        have hsum1 : 1 ≤ (sumDelta db.matches' L.id m.p1).draws :=
          le_trans h1 (matchDelta_le_sumDelta hmem L.id m.p1).2.1
        have hsum2 : 1 ≤ (sumDelta db.matches' L.id m.p2).draws :=
          le_trans h2 (matchDelta_le_sumDelta hmem L.id m.p2).2.1
        have hhs1 : hasStanding db.standings L.id m.p1 = true := by
          cases hh : hasStanding db.standings L.id m.p1
          · have h0 := lookupVals_of_not_hasStanding hh
            have he := hInv.std_replay L.id m.p1
            rw [h0] at he
            rw [← he] at hsum1
            exact absurd hsum1 (by decide)
          · rfl
        have hhs2 : hasStanding db.standings L.id m.p2 = true := by
          cases hh : hasStanding db.standings L.id m.p2
          · have h0 := lookupVals_of_not_hasStanding hh
            have he := hInv.std_replay L.id m.p2
            rw [h0] at he
            rw [← he] at hsum2
            exact absurd hsum2 (by decide)
          · rfl
        rw [if_neg (by simp [hr])]
        constructor
        · intro l u
          show lookupVals (undo_draw db.standings L.id m.p1 m.p2) l u
            = sumDelta (db.matches'.filter (fun x => x.id != m.id)) l u
          rw [lookupVals_undo_draw hhs1 hhs2, hInv.std_replay,
            sumDelta_remove hmem hInv.match_id_nodup]
          have hdd : matchDelta m l u
              = (if l = L.id ∧ u = m.p1 then drawD else 0)
                + (if l = L.id ∧ u = m.p2 then drawD else 0) := by
            rw [matchDelta_draw hrd, hLid]
          rw [hdd]
        · exact distinctKeys_undo_draw _ _ _ hInv.std_keys
        · intro x hx
          rw [List.mem_filter] at hx
          exact hInv.match_id_lt x hx.1
        · exact List.Nodup.sublist (List.Sublist.map _ (List.filter_sublist _))
            hInv.match_id_nodup
        · exact hInv.league_id_lt
        · exact hInv.league_id_nodup
        · exact hInv.open_le
      · have hrw : m.result = "win" := by simpa using hr
        have h1 : 1 ≤ (matchDelta m L.id m.p1).wins := by
          rw [matchDelta_win hrw, if_pos ⟨hLid.symm, rfl⟩]
          split_ifs <;> decide
        have h2 : 1 ≤ (matchDelta m L.id m.p2).losses := by
          rw [matchDelta_win hrw]
          rw [if_pos (show L.id = m.league_id ∧ m.p2 = m.p2 from ⟨hLid.symm, rfl⟩)]
          split_ifs <;> decide
        have hsum1 : 1 ≤ (sumDelta db.matches' L.id m.p1).wins :=
          le_trans h1 (matchDelta_le_sumDelta hmem L.id m.p1).1
        have hsum2 : 1 ≤ (sumDelta db.matches' L.id m.p2).losses :=
          le_trans h2 (matchDelta_le_sumDelta hmem L.id m.p2).2.2.1
        have hhs1 : hasStanding db.standings L.id m.p1 = true := by
          cases hh : hasStanding db.standings L.id m.p1
          · have h0 := lookupVals_of_not_hasStanding hh
            have he := hInv.std_replay L.id m.p1
            rw [h0] at he
            rw [← he] at hsum1
            exact absurd hsum1 (by decide)
          · rfl
        have hhs2 : hasStanding db.standings L.id m.p2 = true := by
          cases hh : hasStanding db.standings L.id m.p2
          · have h0 := lookupVals_of_not_hasStanding hh
            have he := hInv.std_replay L.id m.p2
            rw [h0] at he
            rw [← he] at hsum2
            exact absurd hsum2 (by decide)
          · rfl
        rw [if_pos (by simp [hr])]
        constructor
        · intro l u
          show lookupVals (undo_win db.standings L.id m.p1 m.p2) l u
            = sumDelta (db.matches'.filter (fun x => x.id != m.id)) l u
          rw [lookupVals_undo_win hhs1 hhs2, hInv.std_replay,
            sumDelta_remove hmem hInv.match_id_nodup]
          have hdd : matchDelta m l u
              = (if l = L.id ∧ u = m.p1 then winnerD else 0)
                + (if l = L.id ∧ u = m.p2 then loserD else 0) := by
            rw [matchDelta_win hrw, hLid]
          rw [hdd]
        · exact distinctKeys_undo_win _ _ _ hInv.std_keys
        · intro x hx
          rw [List.mem_filter] at hx
          exact hInv.match_id_lt x hx.1
        · exact List.Nodup.sublist (List.Sublist.map _ (List.filter_sublist _))
            hInv.match_id_nodup
        · exact hInv.league_id_lt
        · exact hInv.league_id_nodup
        · exact hInv.open_le

lemma Inv_admin_reset_league {db : DB} (hInv : Inv db) (g f : String) :
    Inv (admin_reset_league db g f) := by
  unfold admin_reset_league
  split
  · exact hInv
  · next L hL =>
    constructor
    · intro l u
      show lookupVals (db.standings.filter (fun s1 => s1.league_id != L.id)) l u
        = sumDelta (db.matches'.filter (fun m => m.league_id != L.id)) l u
      rw [lookupVals_reset_filter, sumDelta_reset_filter]
      by_cases hl : l = L.id
      · rw [if_pos hl, if_pos hl]
      · rw [if_neg hl, if_neg hl, hInv.std_replay]
    · exact distinctKeys_filter _ hInv.std_keys
    · intro x hx
      rw [List.mem_filter] at hx
      exact hInv.match_id_lt x hx.1
    · exact List.Nodup.sublist (List.Sublist.map _ (List.filter_sublist _))
        hInv.match_id_nodup
    · exact hInv.league_id_lt
    · exact hInv.league_id_nodup
    · exact hInv.open_le


/-! ### Invariant preservation: league registry -/

lemma closeById_id_lt {ls : List LeagueRow} {n : Nat} (i : Nat)
    (h : ∀ l ∈ ls, l.id < n) : ∀ x ∈ closeById ls i, x.id < n := by
  intro x hx
  unfold closeById at hx
  rw [List.mem_map] at hx
  obtain ⟨l, hl, rfl⟩ := hx
  by_cases hc : l.id = i
  · rw [if_pos (by simp [hc])]
    exact h l hl
  · rw [if_neg (by simp [hc])]
    exact h l hl

lemma Inv_league_close {db : DB} (hInv : Inv db) (g f : String) :
    Inv (league_close db g f) := by
  unfold league_close
  split
  · exact hInv
  · next L hL =>
    constructor
    · exact hInv.std_replay
    · exact hInv.std_keys
    · exact hInv.match_id_lt
    · exact hInv.match_id_nodup
    · exact closeById_id_lt L.id hInv.league_id_lt
    · rw [closeById_ids]
      exact hInv.league_id_nodup
    · intro g2 f2
      unfold openCount
      calc ((closeById db.leagues L.id).filter (leagueOpenP g2 f2)).length
          ≤ (db.leagues.filter (leagueOpenP g2 f2)).length :=
            openCount_closeById_le db L.id g2 f2
        _ ≤ 1 := hInv.open_le g2 f2

lemma leagueOpenP_new_row {g2 f2 g n fmt : String} {i : Nat}
    (h : leagueOpenP g2 f2
      { id := i, guild_id := g, name := n, format := fmt, status := "open" } = true) :
    g2 = g ∧ f2 = fmt := by
  unfold leagueOpenP at h
  simp only [Bool.and_eq_true, beq_iff_eq] at h
  exact ⟨h.1.1.symm, h.1.2.symm⟩

lemma Inv_league_create {db : DB} (hInv : Inv db) (g n f0 : String) :
    Inv (league_create db g n f0) := by
  simp only [league_create]
  split
  · exact hInv
  · next hguard =>
    have hc : FORMATS.contains (normalize_format f0) = true := by
      cases hcc : FORMATS.contains (normalize_format f0)
      · rw [hcc] at hguard
        simp at hguard
      · rfl
    have hnn : normalize_format (normalize_format f0) = normalize_format f0 :=
      normalize_format_mem hc
    split
    · next prev hprev =>
      constructor
      · exact hInv.std_replay
      · exact hInv.std_keys
      · exact hInv.match_id_lt
      · exact hInv.match_id_nodup
      · intro x hx
        rcases List.mem_append.1 hx with h | h
        · exact Nat.lt_succ_of_lt (closeById_id_lt prev.id hInv.league_id_lt x h)
        · rw [List.mem_singleton] at h
          subst h
          exact Nat.lt_succ_self _
      · rw [List.map_append, closeById_ids, List.nodup_append]
        refine ⟨hInv.league_id_nodup, List.nodup_singleton _, ?_⟩
        intro a ha hb
        rw [List.mem_map] at ha
        obtain ⟨x, hx, hxe⟩ := ha
        simp only [List.map_cons, List.map_nil, List.mem_singleton] at hb
        rw [hb] at hxe
        exact Nat.ne_of_lt (hInv.league_id_lt x hx) hxe
      · intro g2 f2
        unfold openCount
        rw [List.filter_append, List.length_append]
        cases hrow : leagueOpenP g2 f2
          { id := db.nextLeagueId, guild_id := g, name := n
          , format := normalize_format f0, status := "open" }
        · rw [List.filter_cons_of_neg (by simp [hrow]), List.filter_nil]
          calc ((closeById db.leagues prev.id).filter (leagueOpenP g2 f2)).length + [].length
              = ((closeById db.leagues prev.id).filter (leagueOpenP g2 f2)).length := by simp
            _ ≤ (db.leagues.filter (leagueOpenP g2 f2)).length :=
                openCount_closeById_le db prev.id g2 f2
            _ ≤ 1 := hInv.open_le g2 f2
        · obtain ⟨he1, he2⟩ := leagueOpenP_new_row hrow
          rw [List.filter_cons_of_pos hrow, List.filter_nil]
          have hmem := get_open_league_mem hprev
          rw [hnn] at hmem
          have hzero := openCount_closeById_eq_zero hmem.1 hmem.2
            (hInv.open_le g (normalize_format f0))
          rw [he1, he2, hzero]
          simp
    · next hnone =>
      constructor
      · exact hInv.std_replay
      · exact hInv.std_keys
      · exact hInv.match_id_lt
      · exact hInv.match_id_nodup
      · intro x hx
        rcases List.mem_append.1 hx with h | h
        · exact Nat.lt_succ_of_lt (hInv.league_id_lt x h)
        · rw [List.mem_singleton] at h
          subst h
          exact Nat.lt_succ_self _
      · rw [List.map_append, List.nodup_append]
        refine ⟨hInv.league_id_nodup, List.nodup_singleton _, ?_⟩
        intro a ha hb
        rw [List.mem_map] at ha
        obtain ⟨x, hx, hxe⟩ := ha
        simp only [List.map_cons, List.map_nil, List.mem_singleton] at hb
        rw [hb] at hxe
        exact Nat.ne_of_lt (hInv.league_id_lt x hx) hxe
      · intro g2 f2
        unfold openCount
        rw [List.filter_append, List.length_append]
        cases hrow : leagueOpenP g2 f2
          { id := db.nextLeagueId, guild_id := g, name := n
          , format := normalize_format f0, status := "open" }
        · rw [List.filter_cons_of_neg (by simp [hrow]), List.filter_nil]
          calc (db.leagues.filter (leagueOpenP g2 f2)).length + [].length
              = (db.leagues.filter (leagueOpenP g2 f2)).length := by simp
            _ ≤ 1 := hInv.open_le g2 f2
        · obtain ⟨he1, he2⟩ := leagueOpenP_new_row hrow
          rw [List.filter_cons_of_pos hrow, List.filter_nil]
          have hemp := get_open_league_none hnone
          rw [hnn] at hemp
          rw [he1, he2, hemp]
          simp


/-! ### Invariant preservation: commands -/

lemma Inv_winversus {db : DB} (hInv : Inv db) (g f0 u a : String) (bot : Bool)
    (dg da : String) (t : Int) : Inv (winversus db g f0 u a bot dg da t) := by
  simp only [winversus]
  split
  · exact hInv
  split
  · exact hInv
  split
  · exact hInv
  next league hleague =>
  split
  · exact hInv
  split
  · exact hInv
  split
  · exact hInv
  split
  · exact hInv
  apply Inv_insert_win hInv _ league.id u a (normalize_format f0) (pyStrip dg) (pyStrip da) t
  · simp
  · simp
  · simp
  · simp
  · simp

lemma Inv_drawversus {db : DB} (hInv : Inv db) (g f0 u a : String) (bot : Bool)
    (d1 d2 : String) (t : Int) : Inv (drawversus db g f0 u a bot d1 d2 t) := by
  simp only [drawversus]
  split
  · exact hInv
  split
  · exact hInv
  split
  · exact hInv
  next league hleague =>
  split
  · exact hInv
  split
  · exact hInv
  split
  · exact hInv
  split
  · exact hInv
  apply Inv_insert_draw hInv _ league.id u a (normalize_format f0) (pyStrip d1) (pyStrip d2) t
  · simp
  · simp
  · simp
  · simp
  · simp

lemma Inv_joinleague {db : DB} (hInv : Inv db) (g f0 u : String) :
    Inv (joinleague db g f0 u) := by
  unfold joinleague
  split
  · exact hInv
  split
  · exact hInv
  · exact Inv_untouched hInv _ rfl rfl rfl rfl rfl

lemma Inv_leaveleague {db : DB} (hInv : Inv db) (g f0 u : String) :
    Inv (leaveleague db g f0 u) := by
  unfold leaveleague
  split
  · exact hInv
  · exact Inv_untouched hInv _ rfl rfl rfl rfl rfl

set_option maxHeartbeats 1600000 in
lemma Inv_reportmatch {db : DB} (hInv : Inv db) (g f0 u a : String) (bot : Bool)
    (r dm da v : String) (t : Int) : Inv (reportmatch db g f0 u a bot r dm da v t) := by
  unfold reportmatch
  generalize pyLower (pyStrip r) = res
  generalize pyLower (pyStrip (if v == "" then "moi" else v)) = vd
  generalize pyStrip dm = dm2
  generalize pyStrip da = da2
  generalize normalize_format f0 = fmt2
  split
  · exact hInv
  split
  · exact hInv
  split
  · exact hInv
  split
  · exact hInv
  split
  · exact hInv
  split
  · exact hInv
  split
  · exact hInv
  split
  · exact hInv
  split
  · split
    · exact hInv
    split
    · exact Inv_untouched hInv _ (by simp) (by simp) (by simp) (by simp) (by simp)
    · exact Inv_untouched hInv _ (by simp) (by simp) (by simp) (by simp) (by simp)
  · exact Inv_untouched hInv _ (by simp) (by simp) (by simp) (by simp) (by simp)

lemma Inv_deck_add {db : DB} (hInv : Inv db) (g f0 n : String) :
    Inv (deck_add db g f0 n) := by
  simp only [deck_add]
  split
  · exact hInv
  split
  · exact hInv
  split
  · exact hInv
  · exact Inv_untouched hInv _ (by simp) (by simp) (by simp) (by simp) (by simp)

lemma Inv_deck_remove {db : DB} (hInv : Inv db) (g f0 n : String) :
    Inv (deck_remove db g f0 n) := by
  simp only [deck_remove]
  split
  · exact hInv
  split
  · exact hInv
  · exact Inv_untouched hInv _ rfl rfl rfl rfl rfl

lemma Inv_confirm_body {db : DB} (hInv : Inv db) (pid : Nat) (p : PendingRow) :
    Inv (confirm_body db pid p).1 := by
  simp only [confirm_body]
  split
  · exact Inv_untouched hInv _ rfl rfl rfl rfl rfl
  next league hleague =>
  split
  · exact Inv_untouched hInv _ rfl rfl rfl rfl rfl
  split
  · exact Inv_untouched hInv _ rfl rfl rfl rfl rfl
  split
  · apply Inv_insert_win hInv _ p.league_id (p.winner_id.getD "None") (p.loser_id.getD "None")
      (normalize_format p.format) p.p1_deck p.p2_deck p.created_at
    · simp
    · simp
    · simp
    · simp
    · simp
  · apply Inv_insert_draw hInv _ p.league_id p.reporter_id p.opponent_id
      (normalize_format p.format) p.p1_deck p.p2_deck p.created_at
    · simp
    · simp
    · simp
    · simp
    · simp

lemma Inv_view_confirm {db : DB} (hInv : Inv db) (v : ConfirmMatchView) (actor : String) :
    Inv (view_confirm db v actor).1 := by
  unfold view_confirm
  split
  · exact hInv
  split
  · exact hInv
  · exact Inv_confirm_body hInv _ _

lemma Inv_view_refuse {db : DB} (hInv : Inv db) (v : ConfirmMatchView) (actor : String) :
    Inv (view_refuse db v actor).1 := by
  unfold view_refuse
  split
  · exact hInv
  · exact Inv_untouched hInv _ rfl rfl rfl rfl rfl

lemma Inv_initDB : Inv initDB := by
  constructor
  · intro l u
    rfl
  · exact List.Pairwise.nil
  · intro m hm
    cases hm
  · exact List.nodup_nil
  · intro l hl
    cases hl
  · exact List.nodup_nil
  · intro g f
    exact Nat.zero_le 1

lemma Inv_step {db : DB} (hInv : Inv db) (op : Op) : Inv (step db op) := by
  cases op with
  | createL g n f => exact Inv_league_create hInv g n f
  | closeL g f => exact Inv_league_close hInv g f
  | join g f u => exact Inv_joinleague hInv g f u
  | leave g f u => exact Inv_leaveleague hInv g f u
  | winv g f u a b dg da t => exact Inv_winversus hInv g f u a b dg da t
  | drawv g f u a b d1 d2 t => exact Inv_drawversus hInv g f u a b d1 d2 t
  | reportm g f u a b r dm da v t => exact Inv_reportmatch hInv g f u a b r dm da v t
  | confirmB pid vopp actor => exact Inv_view_confirm hInv _ _
  | refuseB pid vopp actor => exact Inv_view_refuse hInv _ _
  | undoL g f => exact Inv_league_undo_last hInv g f
  | resetL g f => exact Inv_admin_reset_league hInv g f
  | deckAddC g f n => exact Inv_deck_add hInv g f n
  | deckRemoveC g f n => exact Inv_deck_remove hInv g f n

lemma Inv_foldl {db : DB} (hInv : Inv db) (ops : List Op) :
    Inv (ops.foldl step db) := by
  induction ops generalizing db with
  | nil => exact hInv
  | cons op t ih => exact ih (Inv_step hInv op)

lemma Inv_runOps (ops : List Op) : Inv (runOps ops) :=
  Inv_foldl Inv_initDB ops


/-! ### Further helper lemmas for the claims -/

lemma hasStanding_apply_draw_p1 (st : List StandingRow) (league_id : Nat) (a b : String) :
    hasStanding (apply_draw st league_id a b) league_id a = true := by
  unfold apply_draw
  rw [hasStanding_upd keys_bumpDraw]
  apply hasStanding_ensure_mono
  rw [hasStanding_upd keys_bumpDraw]
  exact hasStanding_ensure_self _ _ _

lemma hasStanding_apply_draw_p2 (st : List StandingRow) (league_id : Nat) (a b : String) :
    hasStanding (apply_draw st league_id a b) league_id b = true := by
  unfold apply_draw
  rw [hasStanding_upd keys_bumpDraw]
  exact hasStanding_ensure_self _ _ _

lemma standings_rows_ok {db : DB} (hInv : Inv db) :
    ∀ s ∈ db.standings,
      s.points = 3 * s.wins + s.draws
        ∧ 0 ≤ s.wins ∧ 0 ≤ s.draws ∧ 0 ≤ s.losses ∧ 0 ≤ s.points := by
  intro s hs
  have hv := svals_eq_lookup hInv.std_keys hs
  rw [hInv.std_replay s.league_id s.user_id] at hv
  have hpi := sumDelta_pointInv db.matches' s.league_id s.user_id
  have hnn := sumDelta_nonneg db.matches' s.league_id s.user_id
  rw [← hv] at hpi hnn
  exact ⟨hpi, hnn.1, hnn.2.1, hnn.2.2.1, hnn.2.2.2⟩

/-! ### The claims -/

/-- Claim C1: in every database state reachable from the empty database by
any sequence of commands (league create/close, join/leave, direct win or
draw reports, report-for-confirmation, confirm, refuse, undo-last, league
reset, deck add/remove), every row of the standings table satisfies
`points = 3*wins + 1*draws`, and `wins`, `draws`, `losses`, `points` are
all non-negative. -/
theorem claim_C1 (ops : List Op) :
    ∀ s ∈ (runOps ops).standings,
      s.points = 3 * s.wins + s.draws
        ∧ 0 ≤ s.wins ∧ 0 ≤ s.draws ∧ 0 ≤ s.losses ∧ 0 ≤ s.points :=
  standings_rows_ok (Inv_runOps ops)

theorem claim_C1_witness :
    ((⟨1, "u1", 1, 0, 0, 3⟩ : StandingRow) ∈ (runOps [Op.createL "g" "Spring" "Genesys",
        Op.join "g" "Genesys" "u1", Op.join "g" "Genesys" "u2",
        Op.winv "g" "Genesys" "u1" "u2" false "Aggro" "Control" 5]).standings)
    ∧ ((3 : Int) = 3 * 1 + 0 ∧ (0 : Int) ≤ 1 ∧ (0 : Int) ≤ 0 ∧ (0 : Int) ≤ 0
        ∧ (0 : Int) ≤ 3) :=
  ⟨by decide, claim_C1 [Op.createL "g" "Spring" "Genesys",
      Op.join "g" "Genesys" "u1", Op.join "g" "Genesys" "u2",
      Op.winv "g" "Genesys" "u1" "u2" false "Aggro" "Control" 5]
    ⟨1, "u1", 1, 0, 0, 3⟩ (by decide)⟩

/-- Claim C3: in every reachable state and for every league and key, the
standings counters maintained incrementally by the commands equal the
counters obtained by replaying, from zero-initialized rows, all Match rows
currently in the ledger for that league (`apply_win` with `p1` as winner
and `p2` as loser for a win row, `apply_draw` on `p1`,`p2` for a draw
row). -/
theorem claim_C3 (ops : List Op) (league_id : Nat) (user_id : String) :
    lookupVals (runOps ops).standings league_id user_id
      = lookupVals (replay ((runOps ops).matches'.filter
          (fun m => m.league_id == league_id))) league_id user_id := by
  rw [lookupVals_replay, sumDelta_league_filter, (Inv_runOps ops).std_replay]

/-- Claim C9: the `deck_matchups` aggregation is symmetric over side
assignment: swapping the two deck arguments swaps `a_wins` with `b_wins`
and preserves `games` and `draws`; and `games` counts each ledger row
between the two decks exactly once, regardless of which deck was
`p1_deck`. -/
theorem claim_C9 (ms : List MatchRow) (league_id : Nat) (a b : String) :
    (deck_matchups ms league_id a b).games = (deck_matchups ms league_id b a).games
    ∧ (deck_matchups ms league_id a b).draws = (deck_matchups ms league_id b a).draws
    ∧ (deck_matchups ms league_id a b).a_wins = (deck_matchups ms league_id b a).b_wins
    ∧ (deck_matchups ms league_id a b).b_wins = (deck_matchups ms league_id b a).a_wins
    ∧ (deck_matchups ms league_id a b).games
        = ms.countP (fun m => m.league_id == league_id &&
            ((m.p1_deck == a && m.p2_deck == b) || (m.p1_deck == b && m.p2_deck == a))) := by
  have hfilter : ms.filter (fun m => m.league_id == league_id &&
        ((m.p1_deck == b && m.p2_deck == a) || (m.p1_deck == a && m.p2_deck == b)))
      = ms.filter (fun m => m.league_id == league_id &&
        ((m.p1_deck == a && m.p2_deck == b) || (m.p1_deck == b && m.p2_deck == a))) := by
    apply List.filter_congr
    intro m _
    rw [Bool.or_comm]
  have hdraw : ∀ x ∈ ms.filter (fun m => m.league_id == league_id &&
        ((m.p1_deck == a && m.p2_deck == b) || (m.p1_deck == b && m.p2_deck == a))),
      (x.result == "draw" &&
          ((x.p1_deck == b && x.p2_deck == a) || (x.p1_deck == a && x.p2_deck == b)))
        = true ↔ (x.result == "draw" &&
          ((x.p1_deck == a && x.p2_deck == b) || (x.p1_deck == b && x.p2_deck == a)))
        = true := by
    intro x _
    rw [Bool.or_comm]
  unfold deck_matchups
  rw [hfilter]
  refine ⟨rfl, ?_, rfl, rfl, ?_⟩
  · exact (List.countP_congr hdraw).symm
  · rw [List.countP_eq_length_filter]


/-- Claim C6: an actor whose id differs from the opponent id stored in the
confirmation view is rejected by both the confirm and the refuse handler
with only the not-authorized message, and the database is completely
unchanged (no row of any table is created, modified or deleted). -/
theorem claim_C6 (db : DB) (pid : Nat) (vopp actor : String) (h : ¬(actor = vopp)) :
    view_confirm db ⟨pid, vopp⟩ actor = (db, msg_not_opponent)
    ∧ view_refuse db ⟨pid, vopp⟩ actor = (db, msg_not_opponent) := by
  have hc : interaction_check ⟨pid, vopp⟩ actor = false := by
    unfold interaction_check
    simp [h]
  constructor
  · unfold view_confirm
    rw [hc]
    rfl
  · unfold view_refuse
    rw [hc]
    rfl

theorem claim_C6_witness :
    ¬("u1" = "u2")
    ∧ (view_confirm (runOps [Op.createL "g" "Spring" "Genesys", Op.join "g" "Genesys" "u1",
          Op.join "g" "Genesys" "u2",
          Op.reportm "g" "Genesys" "u1" "u2" false "draw" "Aggro" "Control" "moi" 7])
        ⟨1, "u2"⟩ "u1"
      = (runOps [Op.createL "g" "Spring" "Genesys", Op.join "g" "Genesys" "u1",
          Op.join "g" "Genesys" "u2",
          Op.reportm "g" "Genesys" "u1" "u2" false "draw" "Aggro" "Control" "moi" 7],
        msg_not_opponent))
    ∧ (view_refuse (runOps [Op.createL "g" "Spring" "Genesys", Op.join "g" "Genesys" "u1",
          Op.join "g" "Genesys" "u2",
          Op.reportm "g" "Genesys" "u1" "u2" false "draw" "Aggro" "Control" "moi" 7])
        ⟨1, "u2"⟩ "u1"
      = (runOps [Op.createL "g" "Spring" "Genesys", Op.join "g" "Genesys" "u1",
          Op.join "g" "Genesys" "u2",
          Op.reportm "g" "Genesys" "u1" "u2" false "draw" "Aggro" "Control" "moi" 7],
        msg_not_opponent)) :=
  ⟨by decide,
    (claim_C6 _ 1 "u2" "u1" (by decide)).1,
    (claim_C6 _ 1 "u2" "u1" (by decide)).2⟩

/-- Claim C5: when the named opponent presses confirm: if the pending row
no longer exists nothing changes and a stale message is returned; if the
league row is missing, or closed, or either participant is no longer
registered, the pending row is deleted, the failure message is returned,
and no match row is appended, no deck row is inserted and no standings
row is changed (`delete_pending` only replaces the pending table). -/
theorem claim_C5 (db : DB) (pid : Nat) (vopp : String) (p : PendingRow)
    (league : LeagueRow) :
    (confirm_read db pid = none → view_confirm db ⟨pid, vopp⟩ vopp = (db, msg_stale))
    ∧ (confirm_read db pid = some p →
        db.leagues.find? (fun l => l.id == p.league_id) = none →
        view_confirm db ⟨pid, vopp⟩ vopp = (delete_pending db pid, msg_closed))
    ∧ (confirm_read db pid = some p →
        db.leagues.find? (fun l => l.id == p.league_id) = some league →
        ¬(league.status = "open") →
        view_confirm db ⟨pid, vopp⟩ vopp = (delete_pending db pid, msg_closed))
    ∧ (confirm_read db pid = some p →
        db.leagues.find? (fun l => l.id == p.league_id) = some league →
        league.status = "open" →
        (is_player db p.league_id p.reporter_id
          && is_player db p.league_id p.opponent_id) = false →
        view_confirm db ⟨pid, vopp⟩ vopp = (delete_pending db pid, msg_unregistered))
    ∧ (delete_pending db pid).matches' = db.matches'
    ∧ (delete_pending db pid).decks = db.decks
    ∧ (delete_pending db pid).standings = db.standings
    ∧ (delete_pending db pid).pending = db.pending.filter (fun q => q.id != pid) := by
  have hc : interaction_check ⟨pid, vopp⟩ vopp = true := by
    unfold interaction_check
    simp
  refine ⟨?_, ?_, ?_, ?_, rfl, rfl, rfl, rfl⟩
  · intro h
    unfold view_confirm
    rw [hc, h]
    rfl
  · intro h hleague
    unfold view_confirm
    rw [hc, h]
    show confirm_body db pid p = _
    unfold confirm_body
    rw [hleague]
  · intro h hleague hst
    unfold view_confirm
    rw [hc, h]
    show confirm_body db pid p = _
    unfold confirm_body
    rw [hleague]
    simp [hst]
  · intro h hleague hst hplayers
    unfold view_confirm
    rw [hc, h]
    show confirm_body db pid p = _
    unfold confirm_body
    rw [hleague]
    have h1 : is_player db p.league_id p.reporter_id = false
        ∨ is_player db p.league_id p.opponent_id = false := by
      cases ha : is_player db p.league_id p.reporter_id
      · exact Or.inl rfl
      · cases hb : is_player db p.league_id p.opponent_id
        · exact Or.inr rfl
        · exact absurd hplayers (by simp [ha, hb])
    rcases h1 with h1 | h1 <;> simp [hst, h1]

theorem claim_C5_witness :
    (confirm_read (runOps [Op.createL "g" "Spring" "Genesys"]) 1 = none
      ∧ view_confirm (runOps [Op.createL "g" "Spring" "Genesys"]) ⟨1, "u2"⟩ "u2"
          = (runOps [Op.createL "g" "Spring" "Genesys"], msg_stale))
    ∧ (confirm_read (runOps [Op.createL "g" "Spring" "Genesys",
          Op.join "g" "Genesys" "u1", Op.join "g" "Genesys" "u2",
          Op.reportm "g" "Genesys" "u1" "u2" false "draw" "Aggro" "Control" "moi" 7,
          Op.leave "g" "Genesys" "u1"]) 1
        = some ⟨1, 1, "g", "Genesys", "u1", "u2", "draw", none, none, "Aggro", "Control", 7⟩
      ∧ view_confirm (runOps [Op.createL "g" "Spring" "Genesys",
          Op.join "g" "Genesys" "u1", Op.join "g" "Genesys" "u2",
          Op.reportm "g" "Genesys" "u1" "u2" false "draw" "Aggro" "Control" "moi" 7,
          Op.leave "g" "Genesys" "u1"]) ⟨1, "u2"⟩ "u2"
        = (delete_pending (runOps [Op.createL "g" "Spring" "Genesys",
            Op.join "g" "Genesys" "u1", Op.join "g" "Genesys" "u2",
            Op.reportm "g" "Genesys" "u1" "u2" false "draw" "Aggro" "Control" "moi" 7,
            Op.leave "g" "Genesys" "u1"]) 1, msg_unregistered)) :=
  ⟨⟨by decide, (claim_C5 (runOps [Op.createL "g" "Spring" "Genesys"]) 1 "u2"
      ⟨1, 1, "g", "Genesys", "u1", "u2", "draw", none, none, "Aggro", "Control", 7⟩
      ⟨1, "g", "Spring", "Genesys", "open"⟩).1 (by decide)⟩,
    ⟨by decide, (claim_C5 (runOps [Op.createL "g" "Spring" "Genesys",
        Op.join "g" "Genesys" "u1", Op.join "g" "Genesys" "u2",
        Op.reportm "g" "Genesys" "u1" "u2" false "draw" "Aggro" "Control" "moi" 7,
        Op.leave "g" "Genesys" "u1"]) 1 "u2"
      ⟨1, 1, "g", "Genesys", "u1", "u2", "draw", none, none, "Aggro", "Control", 7⟩
      ⟨1, "g", "Spring", "Genesys", "open"⟩).2.2.2.1
      (by decide) (by decide) (by decide) (by decide)⟩⟩


/-- Claim C4: in every state reachable by any command sequence from the
empty database (in particular by any sequence of `league_create` and
`league_close` calls), every `(guild_id, format)` scope has at most one
league row with status `open`; and `league_create` on a valid format
first sets the previously open league of the scope (if any) to `closed`
and then inserts the new league with status `open` and a fresh id. -/
theorem claim_C4 :
    (∀ ops : List Op, ∀ guild_id fmt : String, openCount (runOps ops) guild_id fmt ≤ 1)
    ∧ (∀ ops : List Op, ∀ guild_id name fmt0 : String,
        FORMATS.contains (normalize_format fmt0) = true →
        (∃ l ∈ (league_create (runOps ops) guild_id name fmt0).leagues,
            l.id = (runOps ops).nextLeagueId ∧ l.status = "open" ∧ l.guild_id = guild_id
              ∧ l.format = normalize_format fmt0)
        ∧ ∀ pr, get_open_league (runOps ops) guild_id (normalize_format fmt0) = some pr →
            ∀ l ∈ (league_create (runOps ops) guild_id name fmt0).leagues,
              l.id = pr.id → l.status = "closed") := by
  constructor
  · intro ops g f
    exact (Inv_runOps ops).open_le g f
  · intro ops guild_id name fmt0 hfmt
    have hnn : normalize_format (normalize_format fmt0) = normalize_format fmt0 :=
      normalize_format_mem hfmt
    have hguard : (!(FORMATS.contains (normalize_format fmt0))) = false := by
      rw [hfmt]
      rfl
    constructor
    · simp only [league_create, hguard, Bool.false_eq_true, if_false]
      cases hprev : get_open_league (runOps ops) guild_id (normalize_format fmt0) with
      | some prev =>
        exact ⟨⟨(runOps ops).nextLeagueId, guild_id, name, normalize_format fmt0, "open"⟩,
          List.mem_append_right _ (List.mem_singleton.2 rfl), rfl, rfl, rfl, rfl⟩
      | none =>
        exact ⟨⟨(runOps ops).nextLeagueId, guild_id, name, normalize_format fmt0, "open"⟩,
          List.mem_append_right _ (List.mem_singleton.2 rfl), rfl, rfl, rfl, rfl⟩
    · intro pr hpr l hl hlid
      simp only [league_create, hguard, Bool.false_eq_true, if_false, hpr] at hl
      rcases List.mem_append.1 hl with h | h
      · unfold closeById at h
        rw [List.mem_map] at h
        obtain ⟨x, hx, rfl⟩ := h
        by_cases hc : x.id = pr.id
        · rw [if_pos (by simp [hc])]
        · rw [if_neg (by simp [hc])] at hlid
          exact absurd hlid hc
      · rw [List.mem_singleton] at h
        subst h
        have hmem := (get_open_league_mem hpr).1
        have hlt := (Inv_runOps ops).league_id_lt pr hmem
        exact absurd hlid (Nat.ne_of_gt hlt)


theorem claim_C4_witness :
    FORMATS.contains (normalize_format "Genesys") = true
    ∧ get_open_league (runOps [Op.createL "g" "A" "Genesys"]) "g"
        (normalize_format "Genesys") = some ⟨1, "g", "A", "Genesys", "open"⟩
    ∧ (⟨1, "g", "A", "Genesys", "closed"⟩ : LeagueRow)
        ∈ (league_create (runOps [Op.createL "g" "A" "Genesys"]) "g" "B" "Genesys").leagues
    ∧ (⟨1, "g", "A", "Genesys", "closed"⟩ : LeagueRow).id
        = (⟨1, "g", "A", "Genesys", "open"⟩ : LeagueRow).id
    ∧ (⟨1, "g", "A", "Genesys", "closed"⟩ : LeagueRow).status = "closed" :=
  ⟨by decide, by decide, by decide, by decide,
    (claim_C4.2 [Op.createL "g" "A" "Genesys"] "g" "B" "Genesys" (by decide)).2
      ⟨1, "g", "A", "Genesys", "open"⟩ (by decide)
      ⟨1, "g", "A", "Genesys", "closed"⟩ (by decide) (by decide)⟩

/-- Claim C8 (counterexample): the claim states `games = wins + losses +
draws`.  On a reachable ledger holding one mirror match (both decks
`Aggro`, result `win`), `deck_stats` returns `wins = 1`, `losses = 1`,
`draws = 0` but `games = 1` (the `COUNT(*)` counts the row once), so
`games ≠ wins + losses + draws`. -/
theorem claim_C8_counterexample :
    deck_stats (runOps [Op.createL "g" "L" "Genesys", Op.join "g" "Genesys" "u1",
        Op.join "g" "Genesys" "u2",
        Op.winv "g" "Genesys" "u1" "u2" false "Aggro" "Aggro" 0]).matches' 1 "Aggro"
      = ⟨1, 1, 0, 1⟩
    ∧ ¬((1 : Nat) = 1 + 1 + 0) := by
  constructor
  · decide
  · decide

lemma deck_stats_games_aux (league_id : Nat) (deck : String) (ms : List MatchRow)
    (h : ∀ m ∈ ms, m.result = "win" ∨ m.result = "draw") :
    ms.countP (fun m => m.league_id == league_id && (m.p1_deck == deck || m.p2_deck == deck))
      + ms.countP (fun m => m.league_id == league_id && m.result == "win"
          && m.p1_deck == deck && m.p2_deck == deck)
      = ms.countP (fun m => m.league_id == league_id && m.result == "win"
            && m.p1_deck == deck)
        + ms.countP (fun m => m.league_id == league_id && m.result == "win"
            && m.p2_deck == deck)
        + ms.countP (fun m => m.league_id == league_id && m.result == "draw"
            && (m.p1_deck == deck || m.p2_deck == deck)) := by
  induction ms with
  | nil => rfl
  | cons m t ih =>
    have ht := ih (fun x hx => h x (List.mem_cons_of_mem _ hx))
    simp only [List.countP_cons]
    rcases h m (List.mem_cons_self _ _) with hr | hr <;>
      cases hL : (m.league_id == league_id) <;>
      cases h1 : (m.p1_deck == deck) <;>
      cases h2 : (m.p2_deck == deck) <;>
      simp [hr, hL, h1, h2] <;>
      omega

/-- Claim C8 (amended): `deck_stats` returns `wins` = the number of the
league's match rows with the deck as `p1_deck` and result `win`,
`losses` = those with the deck as `p2_deck` and result `win`, `draws` =
those with result `draw` and the deck on either side; `games` counts each
row with the deck on either side once, so `games` plus the number of
mirror `win` rows (deck on both sides) equals `wins + losses + draws`;
the claimed equation `games = wins + losses + draws` holds exactly when
the ledger has no mirror `win` row for the deck. -/
theorem claim_C8_amended (ms : List MatchRow) (league_id : Nat) (deck : String)
    (h : ∀ m ∈ ms, m.result = "win" ∨ m.result = "draw") :
    (deck_stats ms league_id deck).wins
      = ms.countP (fun m => m.league_id == league_id && m.result == "win"
          && m.p1_deck == deck)
    ∧ (deck_stats ms league_id deck).losses
      = ms.countP (fun m => m.league_id == league_id && m.result == "win"
          && m.p2_deck == deck)
    ∧ (deck_stats ms league_id deck).draws
      = ms.countP (fun m => m.league_id == league_id && m.result == "draw"
          && (m.p1_deck == deck || m.p2_deck == deck))
    ∧ (deck_stats ms league_id deck).games
        + ms.countP (fun m => m.league_id == league_id && m.result == "win"
            && m.p1_deck == deck && m.p2_deck == deck)
      = (deck_stats ms league_id deck).wins + (deck_stats ms league_id deck).losses
        + (deck_stats ms league_id deck).draws := by
  have hwins : (deck_stats ms league_id deck).wins
      = ms.countP (fun m => m.league_id == league_id && m.result == "win"
          && m.p1_deck == deck) := by
    show (List.countP _ (List.filter _ ms)) = _
    rw [List.countP_filter]
    apply List.countP_congr
    intro m _
    cases hL : (m.league_id == league_id) <;>
      cases hw : (m.result == "win") <;>
      cases h1 : (m.p1_deck == deck) <;>
      cases h2 : (m.p2_deck == deck) <;>
      decide
  have hlosses : (deck_stats ms league_id deck).losses
      = ms.countP (fun m => m.league_id == league_id && m.result == "win"
          && m.p2_deck == deck) := by
    show (List.countP _ (List.filter _ ms)) = _
    rw [List.countP_filter]
    apply List.countP_congr
    intro m _
    cases hL : (m.league_id == league_id) <;>
      cases hw : (m.result == "win") <;>
      cases h1 : (m.p1_deck == deck) <;>
      cases h2 : (m.p2_deck == deck) <;>
      decide
  have hdraws : (deck_stats ms league_id deck).draws
      = ms.countP (fun m => m.league_id == league_id && m.result == "draw"
          && (m.p1_deck == deck || m.p2_deck == deck)) := by
    show (List.countP _ (List.filter _ ms)) = _
    rw [List.countP_filter]
    apply List.countP_congr
    intro m _
    cases hL : (m.league_id == league_id) <;>
      cases hw : (m.result == "draw") <;>
      cases h1 : (m.p1_deck == deck) <;>
      cases h2 : (m.p2_deck == deck) <;>
      decide
  have hgames : (deck_stats ms league_id deck).games
      = ms.countP (fun m => m.league_id == league_id
          && (m.p1_deck == deck || m.p2_deck == deck)) := by
    show (List.filter _ ms).length = _
    rw [List.countP_eq_length_filter]
  refine ⟨hwins, hlosses, hdraws, ?_⟩
  rw [hwins, hlosses, hdraws, hgames]
  exact deck_stats_games_aux league_id deck ms h

theorem claim_C8_amended_witness :
    (∀ m ∈ (runOps [Op.createL "g" "L" "Genesys", Op.join "g" "Genesys" "u1",
        Op.join "g" "Genesys" "u2",
        Op.winv "g" "Genesys" "u1" "u2" false "Aggro" "Aggro" 0]).matches',
      m.result = "win" ∨ m.result = "draw")
    ∧ ((deck_stats (runOps [Op.createL "g" "L" "Genesys", Op.join "g" "Genesys" "u1",
          Op.join "g" "Genesys" "u2",
          Op.winv "g" "Genesys" "u1" "u2" false "Aggro" "Aggro" 0]).matches' 1 "Aggro").games
        + (runOps [Op.createL "g" "L" "Genesys", Op.join "g" "Genesys" "u1",
            Op.join "g" "Genesys" "u2",
            Op.winv "g" "Genesys" "u1" "u2" false "Aggro" "Aggro" 0]).matches'.countP
            (fun m => m.league_id == 1 && m.result == "win"
              && m.p1_deck == "Aggro" && m.p2_deck == "Aggro")
      = (deck_stats (runOps [Op.createL "g" "L" "Genesys", Op.join "g" "Genesys" "u1",
            Op.join "g" "Genesys" "u2",
            Op.winv "g" "Genesys" "u1" "u2" false "Aggro" "Aggro" 0]).matches' 1 "Aggro").wins
        + (deck_stats (runOps [Op.createL "g" "L" "Genesys", Op.join "g" "Genesys" "u1",
            Op.join "g" "Genesys" "u2",
            Op.winv "g" "Genesys" "u1" "u2" false "Aggro" "Aggro" 0]).matches' 1 "Aggro").losses
        + (deck_stats (runOps [Op.createL "g" "L" "Genesys", Op.join "g" "Genesys" "u1",
            Op.join "g" "Genesys" "u2",
            Op.winv "g" "Genesys" "u1" "u2" false "Aggro" "Aggro" 0]).matches' 1 "Aggro").draws) :=
  ⟨by decide,
    (claim_C8_amended (runOps [Op.createL "g" "L" "Genesys", Op.join "g" "Genesys" "u1",
        Op.join "g" "Genesys" "u2",
        Op.winv "g" "Genesys" "u1" "u2" false "Aggro" "Aggro" 0]).matches' 1 "Aggro"
      (by decide)).2.2.2⟩

/-- Claim C7 (code evaluation at the failing schedule): the confirm
handler is not an atomic claim.  It reads the pending row first
(`confirm_read`) and deletes it only at the end of `confirm_body`; the
two phases are separated by awaits, so two concurrent confirm attempts on
the same pending id can both perform their read before either delete.  On
the state below, both reads return the pending row, and running the two
bodies one after the other appends two Match rows and applies the win
twice: the winner ends with `wins = 2, points = 6` instead of the
exactly-once `wins = 1, points = 3`. -/
theorem claim_C7_code_bug :
    confirm_read (runOps [Op.createL "g" "Spring" "Genesys", Op.join "g" "Genesys" "u1",
        Op.join "g" "Genesys" "u2",
        Op.reportm "g" "Genesys" "u1" "u2" false "win" "Aggro" "Control" "moi" 7]) 1
      = some ⟨1, 1, "g", "Genesys", "u1", "u2", "win", some "u1", some "u2",
          "Aggro", "Control", 7⟩
    ∧ (view_confirm (runOps [Op.createL "g" "Spring" "Genesys", Op.join "g" "Genesys" "u1",
          Op.join "g" "Genesys" "u2",
          Op.reportm "g" "Genesys" "u1" "u2" false "win" "Aggro" "Control" "moi" 7])
        ⟨1, "u2"⟩ "u2").1
      = (confirm_body (runOps [Op.createL "g" "Spring" "Genesys", Op.join "g" "Genesys" "u1",
          Op.join "g" "Genesys" "u2",
          Op.reportm "g" "Genesys" "u1" "u2" false "win" "Aggro" "Control" "moi" 7]) 1
          ⟨1, 1, "g", "Genesys", "u1", "u2", "win", some "u1", some "u2",
            "Aggro", "Control", 7⟩).1
    ∧ lookupVals (confirm_body (runOps [Op.createL "g" "Spring" "Genesys",
          Op.join "g" "Genesys" "u1", Op.join "g" "Genesys" "u2",
          Op.reportm "g" "Genesys" "u1" "u2" false "win" "Aggro" "Control" "moi" 7]) 1
          ⟨1, 1, "g", "Genesys", "u1", "u2", "win", some "u1", some "u2",
            "Aggro", "Control", 7⟩).1.standings 1 "u1" = (1, 0, 0, 3)
    ∧ (confirm_body (confirm_body (runOps [Op.createL "g" "Spring" "Genesys",
          Op.join "g" "Genesys" "u1", Op.join "g" "Genesys" "u2",
          Op.reportm "g" "Genesys" "u1" "u2" false "win" "Aggro" "Control" "moi" 7]) 1
          ⟨1, 1, "g", "Genesys", "u1", "u2", "win", some "u1", some "u2",
            "Aggro", "Control", 7⟩).1 1
          ⟨1, 1, "g", "Genesys", "u1", "u2", "win", some "u1", some "u2",
            "Aggro", "Control", 7⟩).1.matches'.length = 2
    ∧ lookupVals (confirm_body (confirm_body (runOps [Op.createL "g" "Spring" "Genesys",
          Op.join "g" "Genesys" "u1", Op.join "g" "Genesys" "u2",
          Op.reportm "g" "Genesys" "u1" "u2" false "win" "Aggro" "Control" "moi" 7]) 1
          ⟨1, 1, "g", "Genesys", "u1", "u2", "win", some "u1", some "u2",
            "Aggro", "Control", 7⟩).1 1
          ⟨1, 1, "g", "Genesys", "u1", "u2", "win", some "u1", some "u2",
            "Aggro", "Control", 7⟩).1.standings 1 "u1" = (2, 0, 0, 6) := by
  refine ⟨by decide, by decide, by decide, by decide, by decide⟩


lemma FORMATS_mem_of_contains {f : String} (h : FORMATS.contains f = true) :
    f ∈ FORMATS := by
  rw [List.contains_iff_exists_mem_beq] at h
  obtain ⟨x, hx, hb⟩ := h
  rw [beq_iff_eq] at hb
  rw [hb]
  exact hx

/-- Claim C2: on any reachable state, reporting a win (or a draw) through
`winversus`/`drawversus` and then immediately performing undo-last
removes exactly the just-appended highest-id Match row and restores every
standings counter of every player to its prior value; no standings field
is negative after the undo; and undo-last on a league with no Matches
changes nothing and replies that there is nothing to undo. -/
theorem claim_C2 (ops : List Op) (db db1 : DB) (g f0 u a dg da : String) (t : Int)
    (isWin : Bool) (L : LeagueRow)
    (hdb : db = runOps ops)
    (hfmt : FORMATS.contains (normalize_format f0) = true)
    (hself : (a == u) = false)
    (hL : get_open_league db g (normalize_format f0) = some L)
    (hme : is_player db L.id u = true)
    (hopp : is_player db L.id a = true)
    (hdecks : (validate_decks [dg, da]).1 = true)
    (hdb1 : db1 = (if isWin then winversus db g f0 u a false dg da t
        else drawversus db g f0 u a false dg da t)) :
    db1.matches' = db.matches'
        ++ [⟨db.nextMatchId, L.id, normalize_format f0, u, a,
            (if isWin then "win" else "draw"), t, pyStrip dg, pyStrip da⟩]
    ∧ (∀ m ∈ db.matches', m.id < db.nextMatchId)
    ∧ (league_undo_last db1 g f0).1.matches' = db.matches'
    ∧ (∀ league_id user_id,
        lookupVals (league_undo_last db1 g f0).1.standings league_id user_id
          = lookupVals db.standings league_id user_id)
    ∧ (∀ s ∈ (league_undo_last db1 g f0).1.standings,
        0 ≤ s.wins ∧ 0 ≤ s.draws ∧ 0 ≤ s.losses ∧ 0 ≤ s.points)
    ∧ (db.matches'.filter (fun m => m.league_id == L.id) = [] →
        league_undo_last db g f0 = (db, msg_nothing_to_undo)) := by
  have hInv : Inv db := by
    rw [hdb]
    exact Inv_runOps ops
  have hnn : normalize_format (normalize_format f0) = normalize_format f0 :=
    normalize_format_mem hfmt
  have hL0 : get_open_league db g f0 = some L := by
    unfold get_open_league at hL ⊢
    rw [hnn] at hL
    exact hL
  have hfm : normalize_format f0 ∈ FORMATS := FORMATS_mem_of_contains hfmt
  have hempty : db.matches'.filter (fun m => m.league_id == L.id) = [] →
      league_undo_last db g f0 = (db, msg_nothing_to_undo) := by
    intro hemp
    simp [league_undo_last, hL0, hemp, latestMatch]
  have hfilter_self : db.matches'.filter (fun x => x.id != db.nextMatchId) = db.matches' := by
    apply List.filter_eq_self.2
    intro x hx
    simp only [bne_iff_ne, ne_eq]
    exact Nat.ne_of_lt (hInv.match_id_lt x hx)
  cases isWin with
  | true =>
    have hdb1w : db1 = winversus db g f0 u a false dg da t := by
      rw [hdb1]
      rfl
    have h1m : db1.matches' = db.matches'
        ++ [⟨db.nextMatchId, L.id, normalize_format f0, u, a, "win", t,
            pyStrip dg, pyStrip da⟩] := by
      rw [hdb1w]
      simp [winversus, hfmt, hfm, hself, hL, hme, hopp, hdecks]
    have h1s : db1.standings = apply_win db.standings L.id u a := by
      rw [hdb1w]
      simp [winversus, hfmt, hfm, hself, hL, hme, hopp, hdecks]
    have h1l : db1.leagues = db.leagues := by
      rw [hdb1w]
      simp [winversus, hfmt, hfm, hself, hL, hme, hopp, hdecks]
    have hInv1 : Inv db1 := by
      rw [hdb1w]
      exact Inv_winversus hInv g f0 u a false dg da t
    have hL1 : get_open_league db1 g f0 = some L := by
      unfold get_open_league
      rw [h1l]
      exact hL0
    have hlast : latestMatch (db1.matches'.filter (fun m => m.league_id == L.id))
        = some ⟨db.nextMatchId, L.id, normalize_format f0, u, a, "win", t,
            pyStrip dg, pyStrip da⟩ := by
      rw [h1m, List.filter_append, List.filter_cons_of_pos (by simp), List.filter_nil]
      apply latestMatch_append_big
      intro x hx
      rw [List.mem_filter] at hx
      exact hInv.match_id_lt x hx.1
    have hundo_m : (league_undo_last db1 g f0).1.matches'
        = db1.matches'.filter (fun x => x.id != db.nextMatchId) := by
      simp [league_undo_last, hL1, hlast]
    have hundo_s : (league_undo_last db1 g f0).1.standings
        = undo_win db1.standings L.id u a := by
      simp [league_undo_last, hL1, hlast]
    refine ⟨h1m, hInv.match_id_lt, ?_, ?_, ?_, hempty⟩
    · rw [hundo_m, h1m, List.filter_append, List.filter_cons_of_neg (by simp),
        List.filter_nil, hfilter_self, List.append_nil]
    · intro l2 u2
      rw [hundo_s, h1s,
        lookupVals_undo_win (hasStanding_apply_win_winner _ _ _ _)
          (hasStanding_apply_win_loser _ _ _ _) l2 u2,
        lookupVals_apply_win]
      abel
    · intro s hs
      have hrows := standings_rows_ok (Inv_league_undo_last hInv1 g f0) s hs
      exact hrows.2
  | false =>
    have hdb1w : db1 = drawversus db g f0 u a false dg da t := by
      rw [hdb1]
      rfl
    have h1m : db1.matches' = db.matches'
        ++ [⟨db.nextMatchId, L.id, normalize_format f0, u, a, "draw", t,
            pyStrip dg, pyStrip da⟩] := by
      rw [hdb1w]
      simp [drawversus, hfmt, hfm, hself, hL, hme, hopp, hdecks]
    have h1s : db1.standings = apply_draw db.standings L.id u a := by
      rw [hdb1w]
      simp [drawversus, hfmt, hfm, hself, hL, hme, hopp, hdecks]
    have h1l : db1.leagues = db.leagues := by
      rw [hdb1w]
      simp [drawversus, hfmt, hfm, hself, hL, hme, hopp, hdecks]
    have hInv1 : Inv db1 := by
      rw [hdb1w]
      exact Inv_drawversus hInv g f0 u a false dg da t
    have hL1 : get_open_league db1 g f0 = some L := by
      unfold get_open_league
      rw [h1l]
      exact hL0
    have hlast : latestMatch (db1.matches'.filter (fun m => m.league_id == L.id))
        = some ⟨db.nextMatchId, L.id, normalize_format f0, u, a, "draw", t,
            pyStrip dg, pyStrip da⟩ := by
      rw [h1m, List.filter_append, List.filter_cons_of_pos (by simp), List.filter_nil]
      apply latestMatch_append_big
      intro x hx
      rw [List.mem_filter] at hx
      exact hInv.match_id_lt x hx.1
    have hundo_m : (league_undo_last db1 g f0).1.matches'
        = db1.matches'.filter (fun x => x.id != db.nextMatchId) := by
      simp [league_undo_last, hL1, hlast]
    have hundo_s : (league_undo_last db1 g f0).1.standings
        = undo_draw db1.standings L.id u a := by
      simp [league_undo_last, hL1, hlast]
    refine ⟨h1m, hInv.match_id_lt, ?_, ?_, ?_, hempty⟩
    · rw [hundo_m, h1m, List.filter_append, List.filter_cons_of_neg (by simp),
        List.filter_nil, hfilter_self, List.append_nil]
    · intro l2 u2
      rw [hundo_s, h1s,
        lookupVals_undo_draw (hasStanding_apply_draw_p1 _ _ _ _)
          (hasStanding_apply_draw_p2 _ _ _ _) l2 u2,
        lookupVals_apply_draw]
      abel
    · intro s hs
      have hrows := standings_rows_ok (Inv_league_undo_last hInv1 g f0) s hs
      exact hrows.2

/-- Witness for claim C2: in a concrete reachable database with one open
Genesys league and two registered players, reporting a win and then running
undo-last restores the Match ledger exactly. -/
theorem claim_C2_witness :
    (league_undo_last (winversus (runOps [Op.createL "g" "Spring" "Genesys",
        Op.join "g" "Genesys" "u1", Op.join "g" "Genesys" "u2"]) "g" "Genesys"
        "u1" "u2" false "Aggro" "Control" 5) "g" "Genesys").1.matches'
      = (runOps [Op.createL "g" "Spring" "Genesys", Op.join "g" "Genesys" "u1",
          Op.join "g" "Genesys" "u2"]).matches' :=
  (claim_C2 [Op.createL "g" "Spring" "Genesys", Op.join "g" "Genesys" "u1",
      Op.join "g" "Genesys" "u2"]
    (runOps [Op.createL "g" "Spring" "Genesys", Op.join "g" "Genesys" "u1",
      Op.join "g" "Genesys" "u2"])
    (winversus (runOps [Op.createL "g" "Spring" "Genesys",
      Op.join "g" "Genesys" "u1", Op.join "g" "Genesys" "u2"]) "g" "Genesys"
      "u1" "u2" false "Aggro" "Control" 5)
    "g" "Genesys" "u1" "u2" "Aggro" "Control" 5 true
    ⟨1, "g", "Spring", "Genesys", "open"⟩
    rfl (by decide) (by decide) (by decide) (by decide) (by decide) (by decide)
    rfl).2.2.1

end LeagueBot
